import Mathlib

/-!
# databasenet: call-logging backend

A shallow embedding of the request handlers of `src/routes/calls.js`,
`src/routes/users.js` and `src/routes/attachments.js`, of the Auth Gate
`src/middleware/auth.js` and of the status filter of `src/public/app.js`.

* SQL statements are kept as data (assignments, placeholders, parameter
  arrays) exactly as the handlers build them; `$k` refers to position `k - 1`
  of the parameter array, as in node-postgres.
* The relational engine is an external collaborator.  Its model here resolves
  placeholders by position and stores dynamically typed values.  As the engine
  does when it binds the parameters, it rejects a statement whose parameter
  array does not have exactly as many entries as the text has distinct
  placeholders; column types belong to the schema and are not modelled.
* Every `await` on a collaborator may reject; a handler receives, for each of
  its collaborator calls, the failure (if any) the environment raises there.
* Storage is the list of the paths that exist; paths follow Node's POSIX
  `path` module.
-/

namespace Databasenet

/-! ## Values, failures, responses -/

/-- A JavaScript value as it travels in a request body or a parameter array.
`null` also stands for `undefined` (node-postgres sends both as NULL). -/
inductive Value where
  | null
  | num (n : Nat)
  | str (s : String)
  | date (ms : Nat)
  deriving DecidableEq, Repr

/-- An exception thrown by a collaborator; `code` is the `error.code` of a
node-postgres error when there is one. -/
structure Failure where
  code : Option String
  deriving DecidableEq, Repr

/-- The value node-postgres binds to placeholder `$k` for the parameter array
`params`: the entry at position `k - 1`. -/
def boundValue (params : List Value) (k : Nat) : Option Value :=
  match k with
  | 0 => none
  | n + 1 => params.get? n

/-! ## The status update statement (`router.patch('/:id/status')`) -/

/-- One entry of `updateFields`: the text `column = $placeholder`. -/
structure Assignment where
  column : String
  placeholder : Nat
  deriving DecidableEq, Repr

/-- The text of an assignment as it is spliced into the statement. -/
def Assignment.render (a : Assignment) : String :=
  a.column ++ " = $" ++ toString a.placeholder

/-- The statement `UPDATE calls SET <updateFields> WHERE id = $1 AND user_id = $2
RETURNING *` together with the parameter array passed along with it. -/
structure StatusUpdate where
  updateFields : List Assignment
  whereId : Nat
  whereUserId : Nat
  params : List Value
  deriving DecidableEq, Repr

/-- The text of the statement sent to the engine, with the line breaks and
indentation of the template literal written as single blanks. -/
def StatusUpdate.text (q : StatusUpdate) : String :=
  "UPDATE calls SET " ++ ", ".intercalate (q.updateFields.map Assignment.render) ++
    " WHERE id = $" ++ toString q.whereId ++ " AND user_id = $" ++ toString q.whereUserId ++
    " RETURNING *"

/-- The `switch(status)` of the handler: the timestamp column stamped for a
status, if any.  The comparison is JavaScript strict equality, so only the three
strings match. -/
def timestampColumn (status : Value) : Option String :=
  if status = Value.str "Followed Up" then some "followed_up_at"
  else if status = Value.str "Not Received Call" then some "not_received_at"
  else if status = Value.str "Completed" then some "completed_at"
  else none

/-- Lines 72-98 of `calls.js`.  `updateFields` starts as `['status = $2']`,
`updateValues` as `[req.user.id, status]` and `paramCount` as `2`; a stamping
status pushes `<column> = $3` and `new Date()`; the parameter array is
`[id, ...updateValues]`. -/
def buildStatusUpdate (id userId : Nat) (status : Value) (now : Nat) : StatusUpdate :=
  let updateFields := [Assignment.mk "status" 2]
  let updateValues := [Value.num userId, status]
  let paramCount := 2
  match timestampColumn status with
  | some column =>
      { updateFields := updateFields ++ [Assignment.mk column (paramCount + 1)]
        whereId := 1
        whereUserId := 2
        params := Value.num id :: (updateValues ++ [Value.date now]) }
  | none =>
      { updateFields := updateFields
        whereId := 1
        whereUserId := 2
        params := Value.num id :: updateValues }

/-- The placeholder of the assignment to `column` in the SET list. -/
def StatusUpdate.placeholderOf (q : StatusUpdate) (column : String) : Option Nat :=
  (q.updateFields.find? (fun a => a.column == column)).map Assignment.placeholder

/-- The value the statement assigns to `column`: the parameter bound to the
placeholder of its assignment. -/
def StatusUpdate.assigned (q : StatusUpdate) (column : String) : Option Value :=
  (q.placeholderOf column).bind (boundValue q.params)

/-! ## Well-formedness of the status update statement -/

/-- The number written by a run of decimal digits. -/
def digitsValue (digits : List Char) : Nat :=
  digits.foldl (fun n c => 10 * n + (c.toNat - '0'.toNat)) 0

/-- The placeholders `$k` occurring in a statement text, in the order of their
occurrence. -/
def scanPlaceholders : List Char → List Nat
  | [] => []
  | c :: rest =>
    if c = '$' ∧ (rest.takeWhile Char.isDigit) ≠ [] then
      digitsValue (rest.takeWhile Char.isDigit) :: scanPlaceholders rest
    else scanPlaceholders rest

/-- The placeholders occurring in the text of the status update. -/
def StatusUpdate.placeholders (q : StatusUpdate) : List Nat :=
  scanPlaceholders q.text.data

/-- The kinds of value a parameter can have. -/
inductive Kind where
  | null
  | number
  | text
  | timestamp
  deriving DecidableEq, Repr

/-- The kind of a parameter value. -/
def Value.kind : Value → Kind
  | Value.null => Kind.null
  | Value.num _ => Kind.number
  | Value.str _ => Kind.text
  | Value.date _ => Kind.timestamp

/-- The kind of value a column of `calls` named in the status update is compared
with or assigned: a key for `id` and `user_id`, a string for `status`, a
timestamp for the three `*_at` columns. -/
def columnKind (column : String) : Option Kind :=
  if column = "id" ∨ column = "user_id" then some Kind.number
  else if column = "status" then some Kind.text
  else if column = "followed_up_at" ∨ column = "not_received_at" ∨ column = "completed_at" then
    some Kind.timestamp
  else none

/-- The uses of placeholders in the status update, as pairs of the column and
the placeholder it is assigned or compared with: the SET list, then the WHERE
clause. -/
def StatusUpdate.uses (q : StatusUpdate) : List (String × Nat) :=
  q.updateFields.map (fun a => (a.column, a.placeholder)) ++
    [("id", q.whereId), ("user_id", q.whereUserId)]

/-- Every placeholder of the text refers to a position of the parameter array. -/
def StatusUpdate.placeholdersInRange (q : StatusUpdate) : Bool :=
  q.placeholders.all (fun k => decide (1 ≤ k ∧ k ≤ q.params.length))

/-- As many parameters are passed as the text has distinct placeholders. -/
def StatusUpdate.arityMatches (q : StatusUpdate) : Bool :=
  q.params.length == q.placeholders.eraseDups.length

/-- Every placeholder is bound to a value of the kind its column expects. -/
def StatusUpdate.kindsMatch (q : StatusUpdate) : Bool :=
  q.uses.all (fun use => (boundValue q.params use.2).map Value.kind == columnKind use.1)

/-- The three conditions together. -/
def StatusUpdate.wellFormed (q : StatusUpdate) : Bool :=
  q.placeholdersInRange && q.arityMatches && q.kindsMatch

/-! ## The store -/

/-- A row of `users`. -/
structure User where
  id : Nat
  username : String
  email : String
  password_hash : String
  created_at : Nat
  deriving DecidableEq, Repr

/-- A row of `calls`.  The columns a handler can write from a parameter hold
dynamically typed values. -/
structure Call where
  id : Nat
  user_id : Nat
  caller_name : Value
  caller_number : Value
  person_to_contact : Value
  operator_name : Value
  priority : Value
  note : Value
  status : Value
  followed_up_at : Value
  not_received_at : Value
  completed_at : Value
  created_at : Nat
  deriving DecidableEq, Repr

/-- A row of `comments`. -/
structure Comment where
  id : Nat
  call_id : Nat
  user_id : Nat
  text : Value
  created_at : Nat
  updated_at : Nat
  deriving DecidableEq, Repr

/-- A row of `attachments`. -/
structure Attachment where
  id : Nat
  comment_id : Nat
  file_name : Value
  file_size : Value
  file_type : Value
  file_url : Value
  storage_path : String
  created_at : Nat
  deriving DecidableEq, Repr

/-- A row of `contact_persons` or of `operators`. -/
structure NameRow where
  id : Nat
  user_id : Nat
  name : String
  deriving DecidableEq, Repr

/-- The relational store: its tables, the next value of each serial key and
the column default of `calls.status` (the schema is not part of the sources, so
the default is a parameter of the store). -/
structure Store where
  users : List User
  calls : List Call
  comments : List Comment
  attachments : List Attachment
  contact_persons : List NameRow
  operators : List NameRow
  nextUserId : Nat
  nextCallId : Nat
  nextCommentId : Nat
  nextAttachmentId : Nat
  nextNameId : Nat
  defaultStatus : Value
  deriving DecidableEq, Repr

/-- The body of a JSON response. -/
structure UserJson where
  id : Nat
  username : String
  email : String
  created_at : Option Nat
  deriving DecidableEq, Repr

/-- The element of `comment_history.attachments` built by `json_build_object`. -/
structure AttachmentJson where
  id : Nat
  file_name : Value
  file_size : Value
  file_type : Value
  file_url : Value
  deriving DecidableEq, Repr

/-- The element of `comment_history` built by `json_build_object`. -/
structure CommentJson where
  id : Nat
  text : Value
  created_at : Nat
  updated_at : Nat
  attachments : List AttachmentJson
  deriving DecidableEq, Repr

/-- A row returned by `GET /calls`: `c.*` and the aggregated `comment_history`. -/
structure CallRow where
  call : Call
  comment_history : List CommentJson
  deriving DecidableEq, Repr

/-- The row of `GET /calls/stats`: one count per output column of the
aggregate query. -/
structure Stats where
  total_calls : Nat
  active_calls : Nat
  pending_calls : Nat
  followed_up_calls : Nat
  not_received_calls : Nat
  completed_calls : Nat
  deriving DecidableEq, Repr

/-- What a handler passes to `res.json`. -/
inductive Body where
  | error (msg : String)
  | message (msg : String)
  | call (row : Call)
  | callList (rows : List CallRow)
  | session (user : UserJson) (token : String)
  | stats (row : Stats)
  | comment (row : Comment)
  | attachment (row : Attachment)
  | attachmentList (rows : List Attachment)
  | nameRow (row : NameRow)
  | file (path : String)
  deriving DecidableEq, Repr

/-- The response a handler sends: `res.status(status).json(body)`; `res.json`
alone sends 200. -/
structure Response where
  status : Nat
  body : Body
  deriving DecidableEq, Repr

/-! ## The engine on `calls` -/

/-- The columns the status update writes. -/
def Call.set (c : Call) (column : String) (v : Value) : Option Call :=
  if column = "status" then some { c with status := v }
  else if column = "followed_up_at" then some { c with followed_up_at := v }
  else if column = "not_received_at" then some { c with not_received_at := v }
  else if column = "completed_at" then some { c with completed_at := v }
  else none

/-- The SET list applied to one row, left to right; `none` when a placeholder has
no parameter or a column does not exist. -/
def applyAssignments (params : List Value) : List Assignment → Call → Option Call
  | [], c => some c
  | a :: rest, c =>
    match boundValue params a.placeholder with
    | none => none
    | some v =>
      match c.set a.column v with
      | none => none
      | some c' => applyAssignments params rest c'

/-- The WHERE clause `id = $whereId AND user_id = $whereUserId` on one row. -/
def StatusUpdate.selects (q : StatusUpdate) (c : Call) : Bool :=
  boundValue q.params q.whereId == some (Value.num c.id) &&
    boundValue q.params q.whereUserId == some (Value.num c.user_id)

/-- The UPDATE carried out on the table, row by row: the `RETURNING *` rows and
the table afterwards.  A statement that cannot be evaluated on a selected row is
an error. -/
def runStatusUpdate (q : StatusUpdate) : List Call → Except Failure (List Call × List Call)
  | [] => Except.ok ([], [])
  | c :: rest =>
    match runStatusUpdate q rest with
    | Except.error e => Except.error e
    | Except.ok (rows, table) =>
      if q.selects c then
        match applyAssignments q.params q.updateFields c with
        | none => Except.error ⟨some "42601"⟩
        | some c' => Except.ok (c' :: rows, c' :: table)
      else Except.ok (rows, c :: table)

/-- The engine receiving the UPDATE with its parameter array.  It first binds
the parameters: an array that does not have as many entries as the text has
distinct placeholders is a protocol violation (code `08P01`) and nothing is
carried out.  Otherwise the statement is carried out on the table. -/
def execStatusUpdate (q : StatusUpdate) (calls : List Call) :
    Except Failure (List Call × List Call) :=
  if q.arityMatches then runStatusUpdate q calls else Except.error ⟨some "08P01"⟩

/-- `PATCH /calls/:id/status` for the identity `userId` attached by the Auth
Gate.  `id` is the key the path parameter denotes and `status` the field of the
body; `fault` is the failure, if any, with which `pool.query` rejects for a
reason of its own; `now` is the value of `new Date()`.  A statement the engine
rejects lands in the `catch` block like any other failure. -/
def patchStatus (fault : Option Failure) (s : Store) (userId id : Nat) (status : Value)
    (now : Nat) : Response × Store :=
  match fault with
  | some _ => (⟨500, Body.error "Failed to update call status"⟩, s)
  | none =>
    match execStatusUpdate (buildStatusUpdate id userId status now) s.calls with
    | Except.error _ => (⟨500, Body.error "Failed to update call status"⟩, s)
    | Except.ok (rows, table) =>
      match rows with
      | [] => (⟨404, Body.error "Call not found"⟩, { s with calls := table })
      | row :: _ => (⟨200, Body.call row⟩, { s with calls := table })

/-! ## Listing, creating and deleting calls -/

/-- The inner aggregate of `GET /calls`: the attachments `WHERE a.comment_id =
cm.id`, as JSON objects; `COALESCE(..., '[]')` makes it the empty list when
there are none. -/
def attachmentsOf (s : Store) (commentId : Nat) : List AttachmentJson :=
  (s.attachments.filter (fun a => a.comment_id == commentId)).map
    (fun a => ⟨a.id, a.file_name, a.file_size, a.file_type, a.file_url⟩)

/-- The outer aggregate of `GET /calls`: the comments joined `ON c.id =
cm.call_id`, as JSON objects. -/
def commentHistory (s : Store) (callId : Nat) : List CommentJson :=
  (s.comments.filter (fun cm => cm.call_id == callId)).map
    (fun cm => ⟨cm.id, cm.text, cm.created_at, cm.updated_at, attachmentsOf s cm.id⟩)

/-- The SELECT of `GET /calls`: the calls `WHERE c.user_id = $1`, one row per
call (`GROUP BY c.id`, the primary key), `ORDER BY c.created_at DESC`. -/
def selectCalls (s : Store) (userId : Nat) : List CallRow :=
  ((s.calls.filter (fun c => c.user_id == userId)).insertionSort
    (fun a b => b.created_at ≤ a.created_at)).map (fun c => ⟨c, commentHistory s c.id⟩)

/-- `GET /calls` for the identity `userId`. -/
def listCalls (fault : Option Failure) (s : Store) (userId : Nat) : Response :=
  match fault with
  | some _ => ⟨500, Body.error "Failed to fetch calls"⟩
  | none => ⟨200, Body.callList (selectCalls s userId)⟩

/-- The fields `POST /calls` destructures from `req.body`; a missing field is
`Value.null`. -/
structure CallInput where
  callerName : Value
  callerNumber : Value
  personToContact : Value
  operatorName : Value
  priority : Value
  note : Value
  deriving DecidableEq, Repr

/-- Modelled from the spec: the schema of `calls` is not part of the sources.
The INSERT of `POST /calls` with the parameter array `[req.user.id, callerName,
callerNumber, personToContact, operatorName, priority, note]`: the required
columns (caller name and number, person to contact, operator, priority) reject
NULL, the note is optional, and `id`, `status`, `created_at` take their column
defaults. -/
def insertCall (s : Store) (userId : Nat) (b : CallInput) (now : Nat) :
    Except Failure (Call × Store) :=
  if b.callerName = Value.null ∨ b.callerNumber = Value.null ∨ b.personToContact = Value.null ∨
      b.operatorName = Value.null ∨ b.priority = Value.null then
    Except.error ⟨some "23502"⟩
  else
    let row : Call :=
      { id := s.nextCallId, user_id := userId, caller_name := b.callerName,
        caller_number := b.callerNumber, person_to_contact := b.personToContact,
        operator_name := b.operatorName, priority := b.priority, note := b.note,
        status := s.defaultStatus, followed_up_at := Value.null,
        not_received_at := Value.null, completed_at := Value.null, created_at := now }
    Except.ok (row, { s with calls := s.calls ++ [row], nextCallId := s.nextCallId + 1 })

/-- `POST /calls` for the identity `userId`: the owner of the new row is
`req.user.id`; the body is never consulted for it. -/
def createCall (fault : Option Failure) (s : Store) (userId : Nat) (b : CallInput) (now : Nat) :
    Response × Store :=
  match fault with
  | some _ => (⟨500, Body.error "Failed to create call"⟩, s)
  | none =>
    match insertCall s userId b now with
    | Except.error _ => (⟨500, Body.error "Failed to create call"⟩, s)
    | Except.ok (row, s') => (⟨201, Body.call row⟩, s')

/-- The WHERE clause `id = $1 AND user_id = $2` with `[id, req.user.id]`. -/
def ownedBy (id userId : Nat) (c : Call) : Bool :=
  c.id == id && c.user_id == userId

/-- `DELETE /calls/:id` for the identity `userId`: `DELETE FROM calls WHERE id =
$1 AND user_id = $2 RETURNING *`.  Only the table `calls` is modelled; what the
schema cascades is not part of the sources. -/
def deleteCall (fault : Option Failure) (s : Store) (userId id : Nat) : Response × Store :=
  match fault with
  | some _ => (⟨500, Body.error "Failed to delete call"⟩, s)
  | none =>
    let rows := s.calls.filter (ownedBy id userId)
    let s' := { s with calls := s.calls.filter (fun c => !ownedBy id userId c) }
    match rows with
    | [] => (⟨404, Body.error "Call not found"⟩, s')
    | _ :: _ => (⟨200, Body.message "Call deleted successfully"⟩, s')

/-! ## Statistics and comments (`src/routes/calls.js`) -/

/-- The aggregate `COUNT(CASE WHEN status = '<status>' THEN 1 END)` over a set
of rows: the rows whose status is that string. -/
def countStatus (calls : List Call) (status : String) : Nat :=
  calls.countP (fun c => c.status == Value.str status)

/-- The SELECT of `GET /calls/stats`: `COUNT(*)` and the five conditional counts
over the rows `WHERE user_id = $1`.  An aggregate without GROUP BY returns one
row, also over no rows. -/
def selectStats (s : Store) (userId : Nat) : Stats :=
  let own := s.calls.filter (fun c => c.user_id == userId)
  { total_calls := own.length
    active_calls := countStatus own "Active"
    pending_calls := countStatus own "Pending"
    followed_up_calls := countStatus own "Followed Up"
    not_received_calls := countStatus own "Not Received Call"
    completed_calls := countStatus own "Completed" }

/-- `GET /calls/stats` for the identity `userId`. -/
def callStats (fault : Option Failure) (s : Store) (userId : Nat) : Response :=
  match fault with
  | some _ => ⟨500, Body.error "Failed to fetch statistics"⟩
  | none => ⟨200, Body.stats (selectStats s userId)⟩

/-- The statement `INSERT INTO comments (call_id, user_id, text) VALUES ($1, $2,
$3) RETURNING *` with `[id, req.user.id, text]`; `id`, `created_at` and
`updated_at` take their column defaults.  The text is stored as it is. -/
def insertComment (s : Store) (callId userId : Nat) (text : Value) (now : Nat) : Comment × Store :=
  let row : Comment := ⟨s.nextCommentId, callId, userId, text, now, now⟩
  (row, { s with comments := s.comments ++ [row], nextCommentId := s.nextCommentId + 1 })

/-- `POST /calls/:id/comments` for the identity `userId`.  `checkFault` and
`insertFault` are the failures with which the two queries reject. -/
def addComment (checkFault insertFault : Option Failure) (s : Store) (userId id : Nat)
    (text : Value) (now : Nat) : Response × Store :=
  match checkFault with
  | some _ => (⟨500, Body.error "Failed to add comment"⟩, s)
  | none =>
    match s.calls.filter (ownedBy id userId) with
    | [] => (⟨404, Body.error "Call not found"⟩, s)
    | _ :: _ =>
      match insertFault with
      | some _ => (⟨500, Body.error "Failed to add comment"⟩, s)
      | none =>
        let (row, s') := insertComment s id userId text now
        (⟨201, Body.comment row⟩, s')

/-! ## Collaborators of the credential component -/

/-- The payload `jwt.verify` returns: what was signed, with the `iat` and `exp`
the library adds. -/
structure Claims where
  id : Nat
  username : String
  iat : Option Nat
  exp : Option Nat
  deriving DecidableEq, Repr

/-- The token library (`jsonwebtoken`), an external collaborator.
`sign id username secret expiresIn now` is `jwt.sign({id, username}, secret,
{expiresIn})` at time `now`; `verify token secret now` is `jwt.verify(token,
secret)` at time `now`, which throws on a malformed, forged or expired token. -/
structure JwtLib where
  sign : Nat → String → String → Nat → Nat → Except Failure String
  verify : String → String → Nat → Except Failure Claims

/-- The password hashing library (`bcryptjs`), an external collaborator.
`hash password saltRounds salt` draws the random `salt` from the environment. -/
structure BcryptLib where
  hash : String → Nat → Nat → Except Failure String
  compare : String → String → Except Failure Bool

/-- The process environment and the libraries the handlers are linked with. -/
structure Env where
  disableAuth : Option String
  jwtSecret : String
  jwt : JwtLib
  bcrypt : BcryptLib

/-- The contract of the token library the round trip relies on: a token it has
issued is not the empty text, and before its expiry `verify` under the signing
secret returns the id and the username that were signed. -/
def JwtLib.Sound (lib : JwtLib) : Prop :=
  ∀ (id : Nat) (username secret : String) (expiresIn now : Nat) (token : String),
    lib.sign id username secret expiresIn now = Except.ok token →
      token ≠ "" ∧
      ∀ later, later < now + expiresIn →
        ∃ claims, lib.verify token secret later = Except.ok claims ∧
          claims.id = id ∧ claims.username = username

/-- The option `expiresIn: '7d'`, in seconds. -/
def sevenDays : Nat := 7 * 24 * 60 * 60

/-- JavaScript `s.replace(pattern, replacement)` for a string pattern: only the
first occurrence is replaced. -/
def replaceFirst (pattern replacement : List Char) : List Char → List Char
  | [] => if pattern.isEmpty then replacement else []
  | c :: cs =>
    if pattern.isPrefixOf (c :: cs) then replacement ++ (c :: cs).drop pattern.length
    else c :: replaceFirst pattern replacement cs

/-- The token of the normal flow: `req.header('Authorization')?.replace('Bearer ', '')`. -/
def bearerToken (header : Option String) : Option String :=
  header.map (fun h => String.mk (replaceFirst "Bearer ".data [] h.data))

/-- Modelled from the spec: the schema of `users` is not part of the sources;
usernames and emails are unique.  `INSERT INTO users (username, email,
password_hash) VALUES ($1, $2, $3) RETURNING ...` with the serial `id` and the
default `created_at`. -/
def insertUser (s : Store) (username email passwordHash : String) (now : Nat) :
    Except Failure (User × Store) :=
  if s.users.any (fun u => u.username == username || u.email == email) then
    Except.error ⟨some "23505"⟩
  else
    let row : User := ⟨s.nextUserId, username, email, passwordHash, now⟩
    Except.ok (row, { s with users := s.users ++ [row], nextUserId := s.nextUserId + 1 })

/-! ## The Auth Gate (`src/middleware/auth.js`) -/

/-- How the gate leaves a request: `next()` with `req.user` attached, or a
response sent by the gate itself (the handler is then not run). -/
inductive GateResult where
  | next (user : Claims)
  | respond (r : Response)
  deriving DecidableEq, Repr

/-- One run of the gate: its outcome, the module variable `publicUserId` and the
store afterwards, and the statements it passed to `pool.query`, in order. -/
structure GateStep where
  result : GateResult
  publicUserId : Option Nat
  store : Store
  queries : List String
  deriving DecidableEq, Repr

/-- The response of the inner `catch (dbErr)`. -/
def provisioningFailed : Response :=
  ⟨500, Body.error "Auth disabled but failed to provision public user"⟩

/-- The statement looking the public user up. -/
def selectPublicUser : String := "SELECT id FROM users WHERE username = $1"

/-- The statement creating the public user. -/
def insertPublicUser : String :=
  "INSERT INTO users (username, email, password_hash) VALUES ($1, $2, $3) RETURNING id"

/-- The body of `if (!publicUserId) { ... }` followed by the attachment of the
public identity: look the user `public` up, create it when absent, remember its
id.  `lookupFault` and `insertFault` are the failures with which the two
queries reject. -/
def provisionPublicUser (lookupFault insertFault : Option Failure) (publicUserId : Option Nat)
    (s : Store) (now : Nat) : GateStep :=
  match lookupFault with
  | some _ => ⟨GateResult.respond provisioningFailed, publicUserId, s, [selectPublicUser]⟩
  | none =>
    match s.users.filter (fun u => u.username == "public") with
    | u :: _ => ⟨GateResult.next ⟨u.id, "public", none, none⟩, some u.id, s, [selectPublicUser]⟩
    | [] =>
      match insertFault with
      | some _ =>
        ⟨GateResult.respond provisioningFailed, publicUserId, s,
          [selectPublicUser, insertPublicUser]⟩
      | none =>
        match insertUser s "public" "public@example.com" "disabled-auth" now with
        | Except.error _ =>
          ⟨GateResult.respond provisioningFailed, publicUserId, s,
            [selectPublicUser, insertPublicUser]⟩
        | Except.ok (row, s') =>
          ⟨GateResult.next ⟨row.id, "public", none, none⟩, some row.id, s',
            [selectPublicUser, insertPublicUser]⟩

/-- The middleware `auth`.  `publicUserId` is the module variable on entry,
`header` the Authorization header (`none` when absent), `now` the clock.
`!publicUserId` holds for `null` and for `0`; `!token` for `undefined` and for
the empty string. -/
def auth (env : Env) (lookupFault insertFault : Option Failure) (publicUserId : Option Nat)
    (s : Store) (header : Option String) (now : Nat) : GateStep :=
  if env.disableAuth = some "true" then
    match publicUserId with
    | none => provisionPublicUser lookupFault insertFault publicUserId s now
    | some n =>
      if n = 0 then provisionPublicUser lookupFault insertFault publicUserId s now
      else ⟨GateResult.next ⟨n, "public", none, none⟩, some n, s, []⟩
  else
    match bearerToken header with
    | none =>
      ⟨GateResult.respond ⟨401, Body.error "Access denied. No token provided."⟩, publicUserId, s, []⟩
    | some token =>
      if token = "" then
        ⟨GateResult.respond ⟨401, Body.error "Access denied. No token provided."⟩,
          publicUserId, s, []⟩
      else
        match env.jwt.verify token env.jwtSecret now with
        | Except.error _ =>
          ⟨GateResult.respond ⟨401, Body.error "Invalid token."⟩, publicUserId, s, []⟩
        | Except.ok decoded => ⟨GateResult.next decoded, publicUserId, s, []⟩

/-- The gate over a sequence of requests of one process: the module variable
and the store are threaded from one request to the next.  A request is its
pair of query failures, its Authorization header and its arrival time. -/
def authRun (env : Env) (publicUserId : Option Nat) (s : Store) :
    List (Option Failure × Option Failure × Option String × Nat) → List GateStep
  | [] => []
  | (lookupFault, insertFault, header, now) :: rest =>
    let step := auth env lookupFault insertFault publicUserId s header now
    step :: authRun env step.publicUserId step.store rest

/-- The ids of `users` come from a serial key, which starts at 1: no row has id
`0` and neither has the next row. -/
def Store.userIdsPositive (s : Store) : Prop :=
  (∀ u ∈ s.users, u.id ≠ 0) ∧ s.nextUserId ≠ 0

/-- The module variable, when it holds an id the gate treats as resolved, names a
row of `public` in the store. -/
def cacheNamesPublicUser (publicUserId : Option Nat) (s : Store) : Prop :=
  ∀ n, publicUserId = some n → n ≠ 0 → ∃ u ∈ s.users, u.username = "public" ∧ u.id = n

/-! ## Registration and login (`src/routes/users.js`) -/

/-- `POST /users/register` with a body of three strings.  `selectFault` and
`insertFault` are the failures with which the two queries reject, `salt` the
randomness `bcrypt.hash` draws, `now` the clock. -/
def register (env : Env) (selectFault insertFault : Option Failure) (s : Store)
    (username email password : String) (salt now : Nat) : Response × Store :=
  match selectFault with
  | some _ => (⟨500, Body.error "Failed to register user"⟩, s)
  | none =>
    match s.users.filter (fun u => u.username == username || u.email == email) with
    | _ :: _ => (⟨400, Body.error "Username or email already exists"⟩, s)
    | [] =>
      match env.bcrypt.hash password 10 salt with
      | Except.error _ => (⟨500, Body.error "Failed to register user"⟩, s)
      | Except.ok passwordHash =>
        match insertFault with
        | some _ => (⟨500, Body.error "Failed to register user"⟩, s)
        | none =>
          match insertUser s username email passwordHash now with
          | Except.error _ => (⟨500, Body.error "Failed to register user"⟩, s)
          | Except.ok (row, s') =>
            match env.jwt.sign row.id row.username env.jwtSecret sevenDays now with
            | Except.error _ => (⟨500, Body.error "Failed to register user"⟩, s')
            | Except.ok token =>
              (⟨201, Body.session ⟨row.id, row.username, row.email, some row.created_at⟩ token⟩, s')

/-- `POST /users/login` with a body of two strings.  `selectFault` is the failure
with which the query rejects.  The store is only read. -/
def login (env : Env) (selectFault : Option Failure) (s : Store) (username password : String)
    (now : Nat) : Response :=
  match selectFault with
  | some _ => ⟨500, Body.error "Failed to log in"⟩
  | none =>
    match s.users.filter (fun u => u.username == username) with
    | [] => ⟨401, Body.error "Invalid credentials"⟩
    | user :: _ =>
      match env.bcrypt.compare password user.password_hash with
      | Except.error _ => ⟨500, Body.error "Failed to log in"⟩
      | Except.ok isValidPassword =>
        if !isValidPassword then ⟨401, Body.error "Invalid credentials"⟩
        else
          match env.jwt.sign user.id user.username env.jwtSecret sevenDays now with
          | Except.error _ => ⟨500, Body.error "Failed to log in"⟩
          | Except.ok token => ⟨200, Body.session ⟨user.id, user.username, user.email, none⟩ token⟩

/-! ## Attachments (`src/routes/attachments.js`) -/

/-- The object `req.file` that multer's disk storage leaves for the handler once
it has written the upload to `path`. -/
structure UploadedFile where
  path : String
  filename : String
  originalname : String
  mimetype : String
  size : Nat
  deriving DecidableEq, Repr

/-- What a handler that also touches the upload directory leaves behind: the
response it has sent (`none` when an exception left the handler before any
response was sent), the store and the paths present in storage. -/
structure Effect where
  response : Option Response
  store : Store
  files : List String
  deriving DecidableEq, Repr

/-- `fs.existsSync(path)` over the paths present in storage; the empty path
names no file. -/
def existsSync (files : List String) (path : String) : Bool :=
  path != "" && files.contains path

/-- `fs.unlinkSync(path)`: removes the file, throws when the file system rejects
the operation (`fault`) or when there is no such file. -/
def unlinkSync (fault : Option Failure) (files : List String) (path : String) :
    Except Failure (List String) :=
  match fault with
  | some e => Except.error e
  | none =>
    if files.contains path then Except.ok (files.filter (fun p => p != path))
    else Except.error ⟨some "ENOENT"⟩

/-- The ownership check on a comment: `SELECT ... FROM comments c JOIN calls cl
ON c.call_id = cl.id WHERE c.id = $1 AND cl.user_id = $2` with `[commentId,
req.user.id]`. -/
def ownedComments (s : Store) (commentId userId : Nat) : List Comment :=
  s.comments.flatMap (fun c =>
    (s.calls.filter (fun cl => c.call_id == cl.id && (c.id == commentId && cl.user_id == userId))).map
      (fun _ => c))

/-- The ownership check on an attachment: `SELECT a.* FROM attachments a JOIN
comments c ON a.comment_id = c.id JOIN calls cl ON c.call_id = cl.id WHERE a.id =
$1 AND cl.user_id = $2` with `[id, req.user.id]`. -/
def ownedAttachments (s : Store) (id userId : Nat) : List Attachment :=
  s.attachments.flatMap (fun a =>
    s.comments.flatMap (fun c =>
      (s.calls.filter (fun cl =>
        a.comment_id == c.id && (c.call_id == cl.id && (a.id == id && cl.user_id == userId)))).map
        (fun _ => a)))

/-- The statement `INSERT INTO attachments (comment_id, file_name, file_size,
file_type, file_url, storage_path) VALUES ($1, ..., $6) RETURNING *` with
`[commentId, originalname, size, mimetype, fileUrl, path]`, where `fileUrl` is
`/uploads/<filename>`. -/
def insertAttachment (s : Store) (commentId : Nat) (file : UploadedFile) (now : Nat) :
    Attachment × Store :=
  let row : Attachment :=
    { id := s.nextAttachmentId, comment_id := commentId, file_name := Value.str file.originalname,
      file_size := Value.num file.size, file_type := Value.str file.mimetype,
      file_url := Value.str ("/uploads/" ++ file.filename), storage_path := file.path,
      created_at := now }
  (row, { s with attachments := s.attachments ++ [row],
                 nextAttachmentId := s.nextAttachmentId + 1 })

/-- The `catch` block of the upload handler when `req.file` is set: it unlinks
the file without a guard of its own and then answers 500.  When the unlink
throws, the exception leaves the handler and no response is sent. -/
def uploadCatch (unlinkFault : Option Failure) (s : Store) (files : List String)
    (file : UploadedFile) : Effect :=
  match unlinkSync unlinkFault files file.path with
  | Except.ok files' => ⟨some ⟨500, Body.error "Failed to upload attachment"⟩, s, files'⟩
  | Except.error _ => ⟨none, s, files⟩

/-- `POST /attachments/:commentId` for the identity `userId`, after
`upload.single('file')`.  `checkFault` and `insertFault` are the failures with
which the two queries reject, `unlinkFault` the one with which the unlink of the
not-found branch throws and `cleanupFault` the one with which the unlink of the
`catch` block throws. -/
def uploadAttachment (checkFault insertFault unlinkFault cleanupFault : Option Failure)
    (s : Store) (files : List String) (userId commentId : Nat) (file : Option UploadedFile)
    (now : Nat) : Effect :=
  match file with
  | none => ⟨some ⟨400, Body.error "No file uploaded"⟩, s, files⟩
  | some f =>
    match checkFault with
    | some _ => uploadCatch cleanupFault s files f
    | none =>
      match ownedComments s commentId userId with
      | [] =>
        match unlinkSync unlinkFault files f.path with
        | Except.ok files' => ⟨some ⟨404, Body.error "Comment not found"⟩, s, files'⟩
        | Except.error _ => uploadCatch cleanupFault s files f
      | _ :: _ =>
        match insertFault with
        | some _ => uploadCatch cleanupFault s files f
        | none =>
          let (row, s') := insertAttachment s commentId f now
          ⟨some ⟨201, Body.attachment row⟩, s', files⟩

/-- `GET /attachments/comment/:commentId` for the identity `userId`: the
ownership check, then `SELECT * FROM attachments WHERE comment_id = $1 ORDER BY
created_at`. -/
def listAttachments (checkFault selectFault : Option Failure) (s : Store)
    (userId commentId : Nat) : Response :=
  match checkFault with
  | some _ => ⟨500, Body.error "Failed to fetch attachments"⟩
  | none =>
    match ownedComments s commentId userId with
    | [] => ⟨404, Body.error "Comment not found"⟩
    | _ :: _ =>
      match selectFault with
      | some _ => ⟨500, Body.error "Failed to fetch attachments"⟩
      | none =>
        ⟨200, Body.attachmentList
          ((s.attachments.filter (fun a => a.comment_id == commentId)).insertionSort
            (fun a b => a.created_at ≤ b.created_at))⟩

/-- `DELETE /attachments/:id` for the identity `userId`: the ownership check,
the unlink of `storage_path` when it is set and the file exists, then `DELETE
FROM attachments WHERE id = $1`.  `unlinkFault` is the failure with which the
unlink throws, `deleteFault` the one with which the DELETE rejects. -/
def deleteAttachment (checkFault deleteFault unlinkFault : Option Failure) (s : Store)
    (files : List String) (userId id : Nat) : Effect :=
  match checkFault with
  | some _ => ⟨some ⟨500, Body.error "Failed to delete attachment"⟩, s, files⟩
  | none =>
    match ownedAttachments s id userId with
    | [] => ⟨some ⟨404, Body.error "Attachment not found"⟩, s, files⟩
    | attachment :: _ =>
      let unlinked : Except Failure (List String) :=
        if attachment.storage_path != "" && existsSync files attachment.storage_path then
          unlinkSync unlinkFault files attachment.storage_path
        else Except.ok files
      match unlinked with
      | Except.error _ => ⟨some ⟨500, Body.error "Failed to delete attachment"⟩, s, files⟩
      | Except.ok files' =>
        match deleteFault with
        | some _ => ⟨some ⟨500, Body.error "Failed to delete attachment"⟩, s, files'⟩
        | none =>
          ⟨some ⟨200, Body.message "Attachment deleted successfully"⟩,
            { s with attachments := s.attachments.filter (fun a => !(a.id == id)) }, files'⟩

/-! ## Serving uploaded files (`router.get('/uploads/:filename')`) -/

/-- The segments of a path between its slashes. -/
def splitSegments : List Char → List (List Char)
  | [] => [[]]
  | c :: cs =>
    if c = '/' then [] :: splitSegments cs
    else
      match splitSegments cs with
      | segment :: segments => (c :: segment) :: segments
      | [] => [[c]]

/-- Node's `normalizeString` on POSIX paths, on segments: empty segments and `.`
are dropped; `..` removes the segment before it, and where there is none (or it
is itself `..`) it is kept only when the path may climb above its root.
`stack` holds the segments kept so far, the last one first. -/
def normalizeSegments (allowAboveRoot : Bool) :
    List (List Char) → List (List Char) → List (List Char)
  | [], stack => stack.reverse
  | segment :: rest, stack =>
    if segment = [] ∨ segment = ['.'] then normalizeSegments allowAboveRoot rest stack
    else if segment = ['.', '.'] then
      match stack with
      | top :: below =>
        if top = ['.', '.'] then
          normalizeSegments allowAboveRoot rest (if allowAboveRoot then segment :: stack else stack)
        else normalizeSegments allowAboveRoot rest below
      | [] => normalizeSegments allowAboveRoot rest (if allowAboveRoot then [segment] else [])
    else normalizeSegments allowAboveRoot rest (segment :: stack)

/-- Node's `path.posix.normalize`. -/
def normalizePath (path : List Char) : List Char :=
  match path with
  | [] => ['.']
  | first :: _ =>
    let isAbsolute := first == '/'
    let trailingSeparator := path.getLast? == some '/'
    let body := List.intercalate ['/'] (normalizeSegments (!isAbsolute) (splitSegments path) [])
    if body = [] then
      if isAbsolute then ['/'] else if trailingSeparator then ['.', '/'] else ['.']
    else
      let withTrailing := if trailingSeparator then body ++ ['/'] else body
      if isAbsolute then '/' :: withTrailing else withTrailing

/-- Node's `path.posix.join`: the non-empty arguments joined by slashes, then
normalized. -/
def pathJoin (parts : List String) : String :=
  match (parts.filter (fun part => part != "")).map String.data with
  | [] => "."
  | nonEmpty => String.mk (normalizePath (List.intercalate ['/'] nonEmpty))

/-- The uploads directory of the route: `path.join(__dirname, '../uploads')`. -/
def uploadsDir (dirname : String) : String :=
  pathJoin [dirname, "../uploads"]

/-- The path the route tests and sends: `path.join(__dirname, '../uploads',
filename)`.  `filename` is the route parameter after Express has URL-decoded
it, so it can hold `..` and slashes (sent as `%2F`). -/
def uploadPath (dirname filename : String) : String :=
  pathJoin [dirname, "../uploads", filename]

/-- A path lies inside a directory when it continues the directory's path with a
slash. -/
def insideDir (dir path : String) : Bool :=
  (dir.data ++ ['/']).isPrefixOf path.data

/-- `GET /attachments/uploads/:filename`, which does not pass the Auth Gate:
`res.sendFile(filePath)` when the file exists, 404 `File not found` otherwise. -/
def serveUpload (files : List String) (dirname filename : String) : Response :=
  if existsSync files (uploadPath dirname filename) then
    ⟨200, Body.file (uploadPath dirname filename)⟩
  else ⟨404, Body.error "File not found"⟩

/-! ## Lookup lists (`src/routes/users.js`) -/

/-- Modelled from the spec: the schemas of `contact_persons` and `operators` are
not part of the sources; a name is unique within a user's rows.  `INSERT INTO
<table> (user_id, name) VALUES ($1, $2) RETURNING *` with `[req.user.id, name]`. -/
def insertName (table : List NameRow) (nextId userId : Nat) (name : String) :
    Except Failure NameRow :=
  if table.any (fun r => r.user_id == userId && r.name == name) then Except.error ⟨some "23505"⟩
  else Except.ok ⟨nextId, userId, name⟩

/-- The `catch` block of the two add handlers: `error.code === '23505'` gives the
specific 400, anything else the 500. -/
def nameInsertFailed (e : Failure) (exists_ failed : String) : Response :=
  if e.code = some "23505" then ⟨400, Body.error exists_⟩ else ⟨500, Body.error failed⟩

/-- `POST /users/contact-persons` for the identity `userId`.  `fault` is the
failure, if any, with which the query rejects for a reason of its own. -/
def addContactPerson (fault : Option Failure) (s : Store) (userId : Nat) (name : String) :
    Response × Store :=
  match fault with
  | some e =>
    (nameInsertFailed e "Contact person already exists" "Failed to add contact person", s)
  | none =>
    match insertName s.contact_persons s.nextNameId userId name with
    | Except.error e =>
      (nameInsertFailed e "Contact person already exists" "Failed to add contact person", s)
    | Except.ok row =>
      (⟨201, Body.nameRow row⟩,
        { s with contact_persons := s.contact_persons ++ [row], nextNameId := s.nextNameId + 1 })

/-- `POST /users/operators` for the identity `userId`. -/
def addOperator (fault : Option Failure) (s : Store) (userId : Nat) (name : String) :
    Response × Store :=
  match fault with
  | some e => (nameInsertFailed e "Operator already exists" "Failed to add operator", s)
  | none =>
    match insertName s.operators s.nextNameId userId name with
    | Except.error e => (nameInsertFailed e "Operator already exists" "Failed to add operator", s)
    | Except.ok row =>
      (⟨201, Body.nameRow row⟩,
        { s with operators := s.operators ++ [row], nextNameId := s.nextNameId + 1 })

/-- The WHERE clause `user_id = $1 AND name = $2` with `[req.user.id, name]`. -/
def namedBy (userId : Nat) (name : String) (r : NameRow) : Bool :=
  r.user_id == userId && r.name == name

/-- The statement `DELETE FROM <table> WHERE user_id = $1 AND name = $2 RETURNING
*` on a lookup table: the rows returned and the table afterwards. -/
def deleteName (table : List NameRow) (userId : Nat) (name : String) :
    List NameRow × List NameRow :=
  (table.filter (namedBy userId name), table.filter (fun r => !namedBy userId name r))

/-- `DELETE /users/contact-persons/:name` for the identity `userId`.  `fault` is
the failure, if any, with which the query rejects. -/
def deleteContactPerson (fault : Option Failure) (s : Store) (userId : Nat) (name : String) :
    Response × Store :=
  match fault with
  | some _ => (⟨500, Body.error "Failed to delete contact person"⟩, s)
  | none =>
    match deleteName s.contact_persons userId name with
    | ([], table) =>
      (⟨404, Body.error "Contact person not found"⟩, { s with contact_persons := table })
    | (_ :: _, table) =>
      (⟨200, Body.message "Contact person deleted successfully"⟩,
        { s with contact_persons := table })

/-- `DELETE /users/operators/:name` for the identity `userId`. -/
def deleteOperator (fault : Option Failure) (s : Store) (userId : Nat) (name : String) :
    Response × Store :=
  match fault with
  | some _ => (⟨500, Body.error "Failed to delete operator"⟩, s)
  | none =>
    match deleteName s.operators userId name with
    | ([], table) => (⟨404, Body.error "Operator not found"⟩, { s with operators := table })
    | (_ :: _, table) =>
      (⟨200, Body.message "Operator deleted successfully"⟩, { s with operators := table })

/-! ## The client's status filter (`src/public/app.js`) -/

/-- The five numbers `updateStatusCards` writes into the status cards. -/
structure StatusCards where
  active : Nat
  pending : Nat
  followedUp : Nat
  notReceived : Nat
  completed : Nat
  deriving DecidableEq, Repr

/-- The state of the page the status filter works on: the globals `allCalls` and
`filteredCalls`, the values of the search input and of the date range select,
the rows `renderCallLog` has drawn, the numbers shown in the status cards, the
`data-status` values of the status cards of the page, and the number of requests
`apiCall` has sent so far. -/
structure Client where
  allCalls : List CallRow
  filteredCalls : List CallRow
  searchTerm : String
  dateRange : String
  rendered : List CallRow
  cards : StatusCards
  statusCards : List String
  requests : Nat
  deriving DecidableEq, Repr

/-- The five counts of `updateStatusCards(calls)`:
`calls.filter(call => call.status === '<status>').length`. -/
def updateStatusCards (calls : List CallRow) : StatusCards :=
  { active := (calls.filter (fun call => call.call.status == Value.str "Active")).length
    pending := (calls.filter (fun call => call.call.status == Value.str "Pending")).length
    followedUp := (calls.filter (fun call => call.call.status == Value.str "Followed Up")).length
    notReceived :=
      (calls.filter (fun call => call.call.status == Value.str "Not Received Call")).length
    completed := (calls.filter (fun call => call.call.status == Value.str "Completed")).length }

/-- The function `filterByStatus(status)`.  It clears the search input and the
date range, assigns `filteredCalls`, and then draws the rows and the cards.  For
a status other than `'All'` it first marks the card `[data-status="<status>"]`;
when the page has no such card `document.querySelector` returns `null` and the
function ends there with a TypeError.  The second component tells whether the
function returned normally.  No request is sent. -/
def filterByStatus (c : Client) (status : String) : Client × Bool :=
  let cleared := { c with searchTerm := "", dateRange := "All Time" }
  if status = "All" then
    let filtered := cleared.allCalls
    ({ cleared with filteredCalls := filtered, rendered := filtered,
                    cards := updateStatusCards cleared.allCalls }, true)
  else
    let filtered := cleared.allCalls.filter (fun call => call.call.status == Value.str status)
    if cleared.statusCards.contains status then
      ({ cleared with filteredCalls := filtered, rendered := filtered,
                      cards := updateStatusCards cleared.allCalls }, true)
    else
      ({ cleared with filteredCalls := filtered }, false)

/-! ## Sample data -/

/-- A call of user 7, still with the status it was created with. -/
def sampleCall : Call :=
  { id := 1, user_id := 7, caller_name := Value.str "Bob", caller_number := Value.str "555-1234",
    person_to_contact := Value.str "Ann", operator_name := Value.str "Op", priority := Value.str "Urgent",
    note := Value.null, status := Value.str "Active", followed_up_at := Value.null,
    not_received_at := Value.null, completed_at := Value.null, created_at := 10 }

/-- A store holding `sampleCall` and nothing else. -/
def sampleStore : Store :=
  { users := [], calls := [sampleCall], comments := [], attachments := [], contact_persons := [],
    operators := [], nextUserId := 1, nextCallId := 2, nextCommentId := 1, nextAttachmentId := 1,
    nextNameId := 1, defaultStatus := Value.str "Active" }

/-- A complete body for `POST /calls`, without a note. -/
def sampleInput : CallInput :=
  { callerName := Value.str "Eve", callerNumber := Value.str "555-9876",
    personToContact := Value.str "Ann", operatorName := Value.str "Op",
    priority := Value.str "Low", note := Value.null }

/-- The row `POST /calls` creates in `sampleStore` for user 7 at time 20. -/
def sampleCreated : Call :=
  { id := 2, user_id := 7, caller_name := Value.str "Eve", caller_number := Value.str "555-9876",
    person_to_contact := Value.str "Ann", operator_name := Value.str "Op", priority := Value.str "Low",
    note := Value.null, status := Value.str "Active", followed_up_at := Value.null,
    not_received_at := Value.null, completed_at := Value.null, created_at := 20 }

/-- The store `sampleStore` after that creation. -/
def sampleAfterCreate : Store :=
  { sampleStore with calls := [sampleCall, sampleCreated], nextCallId := 3 }

/-- The number of seconds of a day. -/
def daySeconds : Nat := 24 * 60 * 60

/-- A token library for the examples.  The token text is the id in unary, the
day of expiry in unary and the length of the secret in unary, each closed by a
dot, followed by the secret and the username; `verify` takes the text apart
again and rejects a token under another secret or after its day of expiry. -/
def sampleJwt : JwtLib :=
  { sign := fun id username secret expiresIn now =>
      Except.ok (String.mk (List.replicate id 'i' ++ '.' ::
        (List.replicate ((now + expiresIn) / daySeconds) 'e' ++ '.' ::
          (List.replicate secret.data.length 's' ++ '.' :: (secret.data ++ username.data)))))
    verify := fun token secret now =>
      match (token.data.span (fun c => c == 'i')) with
      | (ids, '.' :: rest₁) =>
        match rest₁.span (fun c => c == 'e') with
        | (exps, '.' :: rest₂) =>
          match rest₂.span (fun c => c == 's') with
          | (lens, '.' :: rest₃) =>
            if rest₃.take lens.length = secret.data ∧ now / daySeconds ≤ exps.length then
              Except.ok ⟨ids.length, String.mk (rest₃.drop lens.length), none,
                some (exps.length * daySeconds)⟩
            else Except.error ⟨none⟩
          | _ => Except.error ⟨none⟩
        | _ => Except.error ⟨none⟩
      | _ => Except.error ⟨none⟩ }

/-- A password hashing library for the examples: the hash is the salt in unary,
a dollar sign and the password. -/
def sampleBcrypt : BcryptLib :=
  { hash := fun password _ salt =>
      Except.ok (String.mk (List.replicate salt 'x' ++ '$' :: password.data))
    compare := fun password hash =>
      Except.ok (hash.data.dropWhile (fun c => c == 'x') == '$' :: password.data) }

/-- A process in normal mode. -/
def sampleEnv : Env :=
  { disableAuth := none, jwtSecret := "k", jwt := sampleJwt, bcrypt := sampleBcrypt }

/-- A process with authentication disabled. -/
def sampleOpenEnv : Env :=
  { disableAuth := some "true", jwtSecret := "k", jwt := sampleJwt, bcrypt := sampleBcrypt }

/-- Two requests of a process with authentication disabled: without a header,
then with one. -/
def sampleRequests : List (Option Failure × Option Failure × Option String × Nat) :=
  [(none, none, none, 1), (none, none, some "x", 2)]

/-- The row registered for `alice` in `sampleStore` with salt 3 at time 4. -/
def sampleAlice : User := ⟨1, "alice", "a@x", "xxx$pw", 4⟩

/-- The store `sampleStore` after that registration. -/
def sampleWithAlice : Store :=
  { sampleStore with users := [sampleAlice], nextUserId := 2 }

/-- An upload that multer has written to storage. -/
def sampleFile : UploadedFile :=
  { path := "uploads/file-1.txt", filename := "file-1.txt", originalname := "notes.txt",
    mimetype := "text/plain", size := 12 }

/-- A comment of user 7 on `sampleCall`. -/
def sampleComment : Comment := ⟨1, 1, 7, Value.str "called back", 30, 30⟩

/-- An attachment of `sampleComment`, stored at the path of `sampleFile`. -/
def sampleAttachment : Attachment :=
  { id := 1, comment_id := 1, file_name := Value.str "notes.txt", file_size := Value.num 12,
    file_type := Value.str "text/plain", file_url := Value.str "/uploads/file-1.txt",
    storage_path := "uploads/file-1.txt", created_at := 40 }

/-- The store `sampleStore` with `sampleComment`. -/
def sampleWithComment : Store :=
  { sampleStore with comments := [sampleComment], nextCommentId := 2 }

/-- The store `sampleWithComment` with `sampleAttachment`. -/
def sampleWithAttachment : Store :=
  { sampleWithComment with attachments := [sampleAttachment], nextAttachmentId := 2 }

/-- A rewriting of call rows that sets every status to `Completed`. -/
def sampleComplete (c : Call) : Call :=
  { c with status := Value.str "Completed" }

/-- A body for `POST /calls` that lacks the caller's name. -/
def sampleIncomplete : CallInput :=
  { sampleInput with callerName := Value.null }

/-- A page that has cached the two calls of `sampleAfterCreate`, the second one
completed, and has a card for each of the five statuses. -/
def sampleClient : Client :=
  { allCalls := [⟨sampleCall, []⟩, ⟨sampleComplete sampleCreated, []⟩]
    filteredCalls := []
    searchTerm := "bob"
    dateRange := "Today"
    rendered := []
    cards := ⟨0, 0, 0, 0, 0⟩
    statusCards := ["Active", "Pending", "Followed Up", "Not Received Call", "Completed"]
    requests := 3 }

/-- A store in which users 7 and 8 both have a contact person and an operator
called `Ann`, and user 7 also a contact person `Bea`. -/
def sampleWithNames : Store :=
  { sampleStore with
      contact_persons := [⟨1, 7, "Ann"⟩, ⟨2, 8, "Ann"⟩, ⟨3, 7, "Bea"⟩]
      operators := [⟨4, 7, "Ann"⟩, ⟨5, 8, "Ann"⟩]
      nextNameId := 6 }

/-! ## Facts about the status update -/

/-- C1 (the code departs from it): whatever the requested status, the parameter
bound to the placeholder of `status = $2` is the caller's id, because the
parameter array starts with the call id; for caller 7 requesting `Completed` on
call 1 the bound value is `7`, not `Completed`.  The request itself is answered
500 and the row keeps its status. -/
theorem patchStatus_status_bound_to_caller_id :
    (∀ (id userId : Nat) (status : Value) (now : Nat),
      (buildStatusUpdate id userId status now).assigned "status" = some (Value.num userId)) ∧
    (buildStatusUpdate 1 7 (Value.str "Completed") 1000).assigned "status" ≠
      some (Value.str "Completed") ∧
    patchStatus none sampleStore 7 1 (Value.str "Completed") 1000
      = (⟨500, Body.error "Failed to update call status"⟩, sampleStore) := by
  refine ⟨?_, by decide, by decide⟩
  intro id userId status now
  unfold buildStatusUpdate
  cases timestampColumn status <;> rfl

/-- C2 (the code departs from it): for each stamping status the parameter bound
to the placeholder of the timestamp column (`$3`) is the status string itself;
the `new Date()` value sits at position 4 of the parameter array, to which no
assignment of the statement refers.  The SET list is `status = $2` followed by
the assignment of the stamped column, if the status has one.  After the request
of caller 7 for `Completed` on call 1 the column `completed_at` is still
NULL. -/
theorem patchStatus_timestamp_bound_to_status_string :
    (∀ (id userId now : Nat),
      (buildStatusUpdate id userId (Value.str "Completed") now).assigned "completed_at"
        = some (Value.str "Completed") ∧
      (buildStatusUpdate id userId (Value.str "Followed Up") now).assigned "followed_up_at"
        = some (Value.str "Followed Up") ∧
      (buildStatusUpdate id userId (Value.str "Not Received Call") now).assigned "not_received_at"
        = some (Value.str "Not Received Call")) ∧
    (∀ (id userId now : Nat) (text : String),
      (buildStatusUpdate id userId (Value.str text) now).updateFields.all
        (fun a => boundValue (buildStatusUpdate id userId (Value.str text) now).params a.placeholder
          != some (Value.date now)) = true) ∧
    (∀ (id userId now : Nat) (status : Value),
      (buildStatusUpdate id userId status now).updateFields =
        Assignment.mk "status" 2 ::
          (timestampColumn status).toList.map (fun column => Assignment.mk column 3)) ∧
    ((patchStatus none sampleStore 7 1 (Value.str "Completed") 1000).2.calls.map Call.completed_at
      = [Value.null]) := by
  refine ⟨fun id userId now => ⟨rfl, rfl, rfl⟩, ?_, ?_, by decide⟩
  · intro id userId now text
    unfold buildStatusUpdate
    cases timestampColumn (Value.str text) <;> simp [boundValue]
  · intro id userId now status
    unfold buildStatusUpdate
    cases timestampColumn status <;> simp

/-! ## Facts about listing, creating and deleting calls -/

theorem mem_selectCalls (s : Store) (userId : Nat) (r : CallRow) :
    r ∈ selectCalls s userId ↔
      ∃ c ∈ s.calls, c.user_id = userId ∧ r = ⟨c, commentHistory s c.id⟩ := by
  have hperm := List.perm_insertionSort (fun a b : Call => b.created_at ≤ a.created_at)
    (s.calls.filter (fun c => c.user_id == userId))
  unfold selectCalls
  rw [List.mem_map]
  constructor
  · rintro ⟨c, hc, rfl⟩
    have hc' := hperm.mem_iff.1 hc
    rw [List.mem_filter, beq_iff_eq] at hc'
    exact ⟨c, hc'.1, hc'.2, rfl⟩
  · rintro ⟨c, hc, hu, rfl⟩
    refine ⟨c, hperm.mem_iff.2 ?_, rfl⟩
    rw [List.mem_filter, beq_iff_eq]
    exact ⟨hc, hu⟩

/-- C4: a call created by `owner` through `POST /calls` carries `owner` as its
`user_id` whatever the body holds; the list `GET /calls` returns to `owner`
contains it, and the list returned to any other user does not. -/
theorem createCall_listed_for_owner_only (fault : Option Failure) (s s' : Store)
    (owner other : Nat) (b : CallInput) (now : Nat) (row : Call) (hne : owner ≠ other)
    (h : createCall fault s owner b now = (⟨201, Body.call row⟩, s')) :
    row.user_id = owner ∧
    (∃ rows, listCalls none s' owner = ⟨200, Body.callList rows⟩ ∧ ∃ r ∈ rows, r.call = row) ∧
    (∃ rows, listCalls none s' other = ⟨200, Body.callList rows⟩ ∧ ∀ r ∈ rows, r.call ≠ row) := by
  have hrow : row.user_id = owner ∧ row ∈ s'.calls := by
    unfold createCall at h
    cases fault with
    | some e => simp at h
    | none =>
      simp only at h
      unfold insertCall at h
      split_ifs at h with hnull
      · simp at h
      · simp only [Prod.mk.injEq, Response.mk.injEq, Body.call.injEq, true_and] at h
        obtain ⟨hr, hs⟩ := h
        subst hr
        subst hs
        simp
  obtain ⟨huser, hmem⟩ := hrow
  refine ⟨huser, ⟨selectCalls s' owner, rfl, ?_⟩, ⟨selectCalls s' other, rfl, ?_⟩⟩
  · exact ⟨⟨row, commentHistory s' row.id⟩,
      (mem_selectCalls s' owner _).2 ⟨row, hmem, huser, rfl⟩, rfl⟩
  · intro r hr hcall
    obtain ⟨c, _, hu, rfl⟩ := (mem_selectCalls s' other r).1 hr
    simp only at hcall
    subst hcall
    exact hne (huser.symm.trans hu)

theorem createCall_listed_for_owner_only_witness :
    sampleCreated.user_id = 7 ∧
    (∃ rows, listCalls none sampleAfterCreate 7 = ⟨200, Body.callList rows⟩ ∧
      ∃ r ∈ rows, r.call = sampleCreated) ∧
    (∃ rows, listCalls none sampleAfterCreate 8 = ⟨200, Body.callList rows⟩ ∧
      ∀ r ∈ rows, r.call ≠ sampleCreated) :=
  createCall_listed_for_owner_only none sampleStore sampleAfterCreate 7 8 sampleInput 20
    sampleCreated (by decide) (by decide)

/-- C5: `DELETE /calls/:id` whose query goes through.  When no call with that id
is owned by the caller (it belongs to another user, or does not exist) the
answer is 404 `Call not found`, the store is unchanged and every call is still
listed for its owner.  When the caller owns a call with that id the answer is
the success message, that call is gone, every call with another id or another
owner is kept, no other table changes, and with `id` a key of `calls` the table
has lost exactly that row. -/
theorem deleteCall_scoped_to_owner (s : Store) (userId id : Nat) :
    ((∀ c ∈ s.calls, ¬ (c.id = id ∧ c.user_id = userId)) →
      deleteCall none s userId id = (⟨404, Body.error "Call not found"⟩, s) ∧
      ∀ c ∈ s.calls, ∃ r ∈ selectCalls (deleteCall none s userId id).2 c.user_id, r.call = c) ∧
    (∀ c ∈ s.calls, c.id = id → c.user_id = userId →
      (deleteCall none s userId id).1 = ⟨200, Body.message "Call deleted successfully"⟩ ∧
      c ∉ (deleteCall none s userId id).2.calls ∧
      (∀ c', c' ∈ (deleteCall none s userId id).2.calls ↔
        c' ∈ s.calls ∧ ¬ (c'.id = id ∧ c'.user_id = userId)) ∧
      { (deleteCall none s userId id).2 with calls := s.calls } = s ∧
      ((s.calls.map Call.id).Nodup → (deleteCall none s userId id).2.calls = s.calls.erase c)) := by
  have hcalls : (deleteCall none s userId id).2.calls
      = s.calls.filter (fun c => !ownedBy id userId c) := by
    unfold deleteCall
    cases s.calls.filter (ownedBy id userId) <;> rfl
  have howned : ∀ c : Call, ownedBy id userId c = true ↔ (c.id = id ∧ c.user_id = userId) := by
    intro c
    simp [ownedBy]
  constructor
  · intro h
    have hkeep : s.calls.filter (fun c => !ownedBy id userId c) = s.calls := by
      rw [List.filter_eq_self]
      intro c hc
      have := h c hc
      rw [← howned] at this
      simpa using this
    have hnone : s.calls.filter (ownedBy id userId) = [] := by
      rw [List.filter_eq_nil_iff]
      intro c hc
      rw [howned]
      exact h c hc
    have hres : deleteCall none s userId id = (⟨404, Body.error "Call not found"⟩, s) := by
      unfold deleteCall
      simp only [hnone, hkeep]
    refine ⟨hres, ?_⟩
    intro c hc
    rw [hres]
    exact ⟨⟨c, commentHistory s c.id⟩, (mem_selectCalls s c.user_id _).2 ⟨c, hc, rfl, rfl⟩, rfl⟩
  · intro c hc hid huser
    have hc_owned : ownedBy id userId c = true := (howned c).2 ⟨hid, huser⟩
    have hmem : ∀ c', c' ∈ (deleteCall none s userId id).2.calls ↔
        c' ∈ s.calls ∧ ¬ (c'.id = id ∧ c'.user_id = userId) := by
      intro c'
      rw [hcalls, List.mem_filter, ← howned]
      simp
    refine ⟨?_, ?_, hmem, ?_, ?_⟩
    · have hin : c ∈ s.calls.filter (ownedBy id userId) := List.mem_filter.2 ⟨hc, hc_owned⟩
      unfold deleteCall
      cases hrows : s.calls.filter (ownedBy id userId) with
      | nil => rw [hrows] at hin; cases hin
      | cons r rest => rfl
    · intro hin
      exact ((hmem c).1 hin).2 ⟨hid, huser⟩
    · unfold deleteCall
      cases s.calls.filter (ownedBy id userId) <;> rfl
    · intro hkey
      rw [hcalls, (List.Nodup.of_map Call.id hkey).erase_eq_filter]
      apply List.filter_congr
      intro c' hc'
      by_cases heq : c' = c
      · subst heq
        simp [hc_owned]
      · have hid' : c'.id ≠ id := by
          intro h'
          exact heq (List.inj_on_of_nodup_map hkey hc' hc (h'.trans hid.symm))
        have : ownedBy id userId c' = false := by
          simp [ownedBy, hid']
        simp [this, heq]

theorem deleteCall_scoped_to_owner_witness :
    (deleteCall none sampleStore 8 1 = (⟨404, Body.error "Call not found"⟩, sampleStore) ∧
      ∀ c ∈ sampleStore.calls,
        ∃ r ∈ selectCalls (deleteCall none sampleStore 8 1).2 c.user_id, r.call = c) ∧
    (deleteCall none sampleStore 7 1).1 = ⟨200, Body.message "Call deleted successfully"⟩ ∧
    sampleCall ∉ (deleteCall none sampleStore 7 1).2.calls ∧
    (deleteCall none sampleStore 7 1).2.calls = sampleStore.calls.erase sampleCall :=
  have owned := (deleteCall_scoped_to_owner sampleStore 7 1).2 sampleCall
    (by simp [sampleStore]) rfl rfl
  ⟨(deleteCall_scoped_to_owner sampleStore 8 1).1 (by simp [sampleStore, sampleCall]),
    owned.1, owned.2.1, owned.2.2.2.2 (by decide)⟩

/-! ## Facts about the Auth Gate -/

/-- C6: in normal mode the gate issues no query and touches neither the module
variable nor the store, and it ends in exactly one of three ways, decided by the
token `req.header('Authorization')?.replace('Bearer ', '')`: without a header or
with an empty token it answers 401 `Access denied. No token provided.`; with a
token that `jwt.verify` rejects it answers 401 `Invalid token.`; with a token
that `jwt.verify` accepts it continues with the decoded claims as `req.user`.
Whenever it continues, the attached identity is what `jwt.verify` returned. -/
theorem auth_normal_mode_outcomes (env : Env) (lookupFault insertFault : Option Failure)
    (publicUserId : Option Nat) (s : Store) (header : Option String) (now : Nat)
    (hmode : env.disableAuth ≠ some "true") :
    ((auth env lookupFault insertFault publicUserId s header now).publicUserId = publicUserId ∧
      (auth env lookupFault insertFault publicUserId s header now).store = s ∧
      (auth env lookupFault insertFault publicUserId s header now).queries = []) ∧
    (((bearerToken header = none ∨ bearerToken header = some "") ∧
        (auth env lookupFault insertFault publicUserId s header now).result =
          GateResult.respond ⟨401, Body.error "Access denied. No token provided."⟩) ∨
      (∃ token e, bearerToken header = some token ∧ token ≠ "" ∧
        env.jwt.verify token env.jwtSecret now = Except.error e ∧
        (auth env lookupFault insertFault publicUserId s header now).result =
          GateResult.respond ⟨401, Body.error "Invalid token."⟩) ∨
      (∃ token decoded, bearerToken header = some token ∧ token ≠ "" ∧
        env.jwt.verify token env.jwtSecret now = Except.ok decoded ∧
        (auth env lookupFault insertFault publicUserId s header now).result =
          GateResult.next decoded)) ∧
    (header = none →
      (auth env lookupFault insertFault publicUserId s header now).result =
        GateResult.respond ⟨401, Body.error "Access denied. No token provided."⟩) ∧
    (∀ user, (auth env lookupFault insertFault publicUserId s header now).result
        = GateResult.next user →
      ∃ token, bearerToken header = some token ∧ token ≠ "" ∧
        env.jwt.verify token env.jwtSecret now = Except.ok user) := by
  cases htok : bearerToken header with
  | none =>
    have hres : auth env lookupFault insertFault publicUserId s header now =
        ⟨GateResult.respond ⟨401, Body.error "Access denied. No token provided."⟩,
          publicUserId, s, []⟩ := by
      unfold auth
      rw [if_neg hmode, htok]
    rw [hres]
    refine ⟨⟨rfl, rfl, rfl⟩, Or.inl ⟨Or.inl rfl, rfl⟩, fun _ => rfl, ?_⟩
    intro user h
    cases h
  | some token =>
    have hhead : header ≠ none := by
      intro h
      rw [h] at htok
      cases htok
    by_cases hempty : token = ""
    · have hres : auth env lookupFault insertFault publicUserId s header now =
          ⟨GateResult.respond ⟨401, Body.error "Access denied. No token provided."⟩,
            publicUserId, s, []⟩ := by
        unfold auth
        rw [if_neg hmode, htok]
        simp only [hempty, if_true]
      rw [hres]
      refine ⟨⟨rfl, rfl, rfl⟩, Or.inl ⟨Or.inr (by rw [hempty]), rfl⟩,
        fun h => absurd h hhead, ?_⟩
      intro user h
      cases h
    · cases hver : env.jwt.verify token env.jwtSecret now with
      | error e =>
        have hres : auth env lookupFault insertFault publicUserId s header now =
            ⟨GateResult.respond ⟨401, Body.error "Invalid token."⟩, publicUserId, s, []⟩ := by
          unfold auth
          rw [if_neg hmode, htok]
          simp only [if_neg hempty, hver]
        rw [hres]
        refine ⟨⟨rfl, rfl, rfl⟩, Or.inr (Or.inl ⟨token, e, rfl, hempty, hver, rfl⟩),
          fun h => absurd h hhead, ?_⟩
        intro user h
        cases h
      | ok decoded =>
        have hres : auth env lookupFault insertFault publicUserId s header now =
            ⟨GateResult.next decoded, publicUserId, s, []⟩ := by
          unfold auth
          rw [if_neg hmode, htok]
          simp only [if_neg hempty, hver]
        rw [hres]
        refine ⟨⟨rfl, rfl, rfl⟩, Or.inr (Or.inr ⟨token, decoded, rfl, hempty, hver, rfl⟩),
          fun h => absurd h hhead, ?_⟩
        intro user h
        simp only [GateResult.next.injEq] at h
        exact ⟨token, rfl, hempty, by rw [← h, hver]⟩

theorem auth_normal_mode_outcomes_witness :
    sampleEnv.disableAuth ≠ some "true" ∧
    (((bearerToken (some "Bearer iii.eeeeeee.s.kal") = none ∨
          bearerToken (some "Bearer iii.eeeeeee.s.kal") = some "") ∧
        (auth sampleEnv none none none sampleStore (some "Bearer iii.eeeeeee.s.kal") 5).result =
          GateResult.respond ⟨401, Body.error "Access denied. No token provided."⟩) ∨
      (∃ token e, bearerToken (some "Bearer iii.eeeeeee.s.kal") = some token ∧ token ≠ "" ∧
        sampleEnv.jwt.verify token sampleEnv.jwtSecret 5 = Except.error e ∧
        (auth sampleEnv none none none sampleStore (some "Bearer iii.eeeeeee.s.kal") 5).result =
          GateResult.respond ⟨401, Body.error "Invalid token."⟩) ∨
      (∃ token decoded, bearerToken (some "Bearer iii.eeeeeee.s.kal") = some token ∧ token ≠ "" ∧
        sampleEnv.jwt.verify token sampleEnv.jwtSecret 5 = Except.ok decoded ∧
        (auth sampleEnv none none none sampleStore (some "Bearer iii.eeeeeee.s.kal") 5).result =
          GateResult.next decoded)) :=
  ⟨by decide,
    (auth_normal_mode_outcomes sampleEnv none none none sampleStore
      (some "Bearer iii.eeeeeee.s.kal") 5 (by decide)).2.1⟩

theorem auth_cached (env : Env) (lookupFault insertFault : Option Failure) (n : Nat) (s : Store)
    (header : Option String) (now : Nat) (hmode : env.disableAuth = some "true") (hn : n ≠ 0) :
    auth env lookupFault insertFault (some n) s header now =
      ⟨GateResult.next ⟨n, "public", none, none⟩, some n, s, []⟩ := by
  unfold auth
  rw [if_pos hmode]
  simp only [if_neg hn]

theorem authRun_cached (env : Env) (n : Nat) (s : Store) (hmode : env.disableAuth = some "true")
    (hn : n ≠ 0) (reqs : List (Option Failure × Option Failure × Option String × Nat)) :
    ∀ st ∈ authRun env (some n) s reqs,
      st = ⟨GateResult.next ⟨n, "public", none, none⟩, some n, s, []⟩ := by
  induction reqs with
  | nil =>
    intro st hst
    cases hst
  | cons r rest ih =>
    obtain ⟨lookupFault, insertFault, header, now⟩ := r
    intro st hst
    simp only [authRun, auth_cached env lookupFault insertFault n s header now hmode hn,
      List.mem_cons] at hst
    rcases hst with hst | hst
    · exact hst
    · exact ih st hst

theorem provisionPublicUser_cases (lookupFault insertFault : Option Failure)
    (publicUserId : Option Nat) (s : Store) (now : Nat) (hpos : s.userIdsPositive) :
    ((provisionPublicUser lookupFault insertFault publicUserId s now).result
        = GateResult.respond provisioningFailed ∧
      (provisionPublicUser lookupFault insertFault publicUserId s now).publicUserId = publicUserId ∧
      (provisionPublicUser lookupFault insertFault publicUserId s now).store = s) ∨
    (∃ id, id ≠ 0 ∧
      (provisionPublicUser lookupFault insertFault publicUserId s now).result
        = GateResult.next ⟨id, "public", none, none⟩ ∧
      (provisionPublicUser lookupFault insertFault publicUserId s now).publicUserId = some id ∧
      (∃ u ∈ (provisionPublicUser lookupFault insertFault publicUserId s now).store.users,
        u.username = "public" ∧ u.id = id) ∧
      (provisionPublicUser lookupFault insertFault publicUserId s now).store.userIdsPositive) := by
  unfold provisionPublicUser
  cases lookupFault with
  | some e => exact Or.inl ⟨rfl, rfl, rfl⟩
  | none =>
    cases hfound : s.users.filter (fun u => u.username == "public") with
    | cons u rest =>
      have hu : u ∈ s.users.filter (fun u => u.username == "public") := by
        rw [hfound]
        exact List.mem_cons_self u rest
      rw [List.mem_filter, beq_iff_eq] at hu
      exact Or.inr ⟨u.id, hpos.1 u hu.1, rfl, rfl, ⟨u, hu.1, hu.2, rfl⟩, hpos⟩
    | nil =>
      cases insertFault with
      | some e => exact Or.inl ⟨rfl, rfl, rfl⟩
      | none =>
        simp only
        unfold insertUser
        split_ifs with hdup
        · exact Or.inl ⟨rfl, rfl, rfl⟩
        · refine Or.inr ⟨s.nextUserId, hpos.2, rfl, rfl,
            ⟨⟨s.nextUserId, "public", "public@example.com", "disabled-auth", now⟩, ?_, rfl, rfl⟩,
            ?_, ?_⟩
          · simp
          · intro u hu
            simp only [List.mem_append, List.mem_singleton] at hu
            rcases hu with hu | hu
            · exact hpos.1 u hu
            · rw [hu]
              exact hpos.2
          · exact Nat.succ_ne_zero _

theorem auth_disabled_step (env : Env) (lookupFault insertFault : Option Failure)
    (publicUserId : Option Nat) (s : Store) (header : Option String) (now : Nat)
    (hmode : env.disableAuth = some "true") (hpos : s.userIdsPositive)
    (hcache : cacheNamesPublicUser publicUserId s) :
    ((auth env lookupFault insertFault publicUserId s header now).result
        = GateResult.respond provisioningFailed ∧
      (auth env lookupFault insertFault publicUserId s header now).publicUserId = publicUserId ∧
      (auth env lookupFault insertFault publicUserId s header now).store = s) ∨
    (∃ id, id ≠ 0 ∧
      (auth env lookupFault insertFault publicUserId s header now).result
        = GateResult.next ⟨id, "public", none, none⟩ ∧
      (auth env lookupFault insertFault publicUserId s header now).publicUserId = some id ∧
      (∃ u ∈ (auth env lookupFault insertFault publicUserId s header now).store.users,
        u.username = "public" ∧ u.id = id) ∧
      (auth env lookupFault insertFault publicUserId s header now).store.userIdsPositive) := by
  cases publicUserId with
  | none =>
    have h : auth env lookupFault insertFault none s header now
        = provisionPublicUser lookupFault insertFault none s now := by
      unfold auth
      rw [if_pos hmode]
    rw [h]
    exact provisionPublicUser_cases lookupFault insertFault none s now hpos
  | some n =>
    by_cases hn : n = 0
    · have h : auth env lookupFault insertFault (some n) s header now
          = provisionPublicUser lookupFault insertFault (some n) s now := by
        unfold auth
        rw [if_pos hmode]
        simp only [if_pos hn]
      rw [h]
      exact provisionPublicUser_cases lookupFault insertFault (some n) s now hpos
    · rw [auth_cached env lookupFault insertFault n s header now hmode hn]
      exact Or.inr ⟨n, hn, rfl, rfl, hcache n rfl hn, hpos⟩

theorem auth_disabled_step_invariant (env : Env) (lookupFault insertFault : Option Failure)
    (publicUserId : Option Nat) (s : Store) (header : Option String) (now : Nat)
    (hmode : env.disableAuth = some "true") (hpos : s.userIdsPositive)
    (hcache : cacheNamesPublicUser publicUserId s) :
    (auth env lookupFault insertFault publicUserId s header now).store.userIdsPositive ∧
    cacheNamesPublicUser (auth env lookupFault insertFault publicUserId s header now).publicUserId
      (auth env lookupFault insertFault publicUserId s header now).store := by
  rcases auth_disabled_step env lookupFault insertFault publicUserId s header now hmode hpos hcache
    with ⟨_, hp, hs⟩ | ⟨id, _, _, hp, hu, hpos'⟩
  · rw [hp, hs]
    exact ⟨hpos, hcache⟩
  · refine ⟨hpos', ?_⟩
    intro n hn _
    rw [hp] at hn
    cases hn
    exact hu

theorem authRun_disabled_steps (env : Env) (hmode : env.disableAuth = some "true")
    (reqs : List (Option Failure × Option Failure × Option String × Nat)) :
    ∀ (publicUserId : Option Nat) (s : Store), s.userIdsPositive →
      cacheNamesPublicUser publicUserId s →
      ∀ step ∈ authRun env publicUserId s reqs,
        (∃ id, step.result = GateResult.next ⟨id, "public", none, none⟩ ∧
          step.publicUserId = some id ∧
          ∃ u ∈ step.store.users, u.username = "public" ∧ u.id = id) ∨
        step.result = GateResult.respond provisioningFailed := by
  induction reqs with
  | nil =>
    intro publicUserId s _ _ step hstep
    cases hstep
  | cons r rest ih =>
    obtain ⟨lookupFault, insertFault, header, now⟩ := r
    intro publicUserId s hpos hcache step hstep
    simp only [authRun, List.mem_cons] at hstep
    rcases hstep with hstep | hstep
    · rw [hstep]
      rcases auth_disabled_step env lookupFault insertFault publicUserId s header now hmode hpos
        hcache with ⟨hr, _, _⟩ | ⟨id, _, hr, hp, hu, _⟩
      · exact Or.inr hr
      · exact Or.inl ⟨id, hr, hp, hu⟩
    · have hinv := auth_disabled_step_invariant env lookupFault insertFault publicUserId s header
        now hmode hpos hcache
      exact ih _ _ hinv.1 hinv.2 step hstep

theorem authRun_disabled_once (env : Env) (hmode : env.disableAuth = some "true")
    (reqs : List (Option Failure × Option Failure × Option String × Nat)) :
    ∀ (publicUserId : Option Nat) (s : Store), s.userIdsPositive →
      cacheNamesPublicUser publicUserId s →
      ∀ (pre : List GateStep) (step : GateStep) (post : List GateStep),
        authRun env publicUserId s reqs = pre ++ step :: post →
        (∃ user, step.result = GateResult.next user) →
        ∀ st ∈ post, st.queries = [] ∧ st.result = step.result ∧ st.store = step.store ∧
          st.publicUserId = step.publicUserId := by
  induction reqs with
  | nil =>
    intro publicUserId s _ _ pre step post h
    cases pre <;> cases h
  | cons r rest ih =>
    obtain ⟨lookupFault, insertFault, header, now⟩ := r
    intro publicUserId s hpos hcache pre step post h hnext
    simp only [authRun] at h
    cases pre with
    | nil =>
      simp only [List.nil_append, List.cons.injEq] at h
      obtain ⟨hstep, hpost⟩ := h
      rcases auth_disabled_step env lookupFault insertFault publicUserId s header now hmode hpos
        hcache with ⟨hr, _, _⟩ | ⟨id, hid, hr, hp, _, _⟩
      · obtain ⟨user, huser⟩ := hnext
        rw [← hstep, hr] at huser
        cases huser
      · intro st hst
        rw [← hpost, hp] at hst
        have hst' := authRun_cached env id _ hmode hid rest st hst
        rw [← hstep, hr, hp, hst']
        exact ⟨rfl, rfl, rfl, rfl⟩
    | cons x pre' =>
      simp only [List.cons_append, List.cons.injEq] at h
      have hinv := auth_disabled_step_invariant env lookupFault insertFault publicUserId s header
        now hmode hpos hcache
      exact ih _ _ hinv.1 hinv.2 pre' step post h.2 hnext

theorem provisionPublicUser_found (insertFault : Option Failure) (publicUserId : Option Nat)
    (s : Store) (now : Nat) (hrow : ∃ u ∈ s.users, u.username = "public") :
    ∃ id, (provisionPublicUser none insertFault publicUserId s now).result
        = GateResult.next ⟨id, "public", none, none⟩ ∧
      (provisionPublicUser none insertFault publicUserId s now).publicUserId = some id := by
  obtain ⟨u, hu, hname⟩ := hrow
  have hin : u ∈ s.users.filter (fun u => u.username == "public") := by
    rw [List.mem_filter, beq_iff_eq]
    exact ⟨hu, hname⟩
  unfold provisionPublicUser
  cases hfound : s.users.filter (fun u => u.username == "public") with
  | nil => rw [hfound] at hin; cases hin
  | cons first rest => exact ⟨first.id, rfl, rfl⟩

theorem provisionPublicUser_created (publicUserId : Option Nat) (s : Store) (now : Nat)
    (hnone : ∀ u ∈ s.users, u.username ≠ "public")
    (hemail : ∀ u ∈ s.users, u.email = "public@example.com" → u.username = "public") :
    (provisionPublicUser none none publicUserId s now).result
        = GateResult.next ⟨s.nextUserId, "public", none, none⟩ ∧
      (provisionPublicUser none none publicUserId s now).publicUserId = some s.nextUserId := by
  have hfilter : s.users.filter (fun u => u.username == "public") = [] := by
    rw [List.filter_eq_nil_iff]
    intro u hu
    simpa using hnone u hu
  have hfree : s.users.any (fun u => u.username == "public" || u.email == "public@example.com")
      = false := by
    rw [List.any_eq_false]
    intro u hu
    have h₁ := hnone u hu
    have h₂ : u.email ≠ "public@example.com" := fun h => h₁ (hemail u hu h)
    simp [h₁, h₂]
  simp only [provisionPublicUser, hfilter, insertUser, hfree]
  exact ⟨rfl, rfl⟩

theorem auth_disabled_continues (env : Env) (hmode : env.disableAuth = some "true")
    (publicUserId : Option Nat) (s : Store) (header : Option String) (now : Nat)
    (hemail : ∀ u ∈ s.users, u.email = "public@example.com" → u.username = "public") :
    ∃ id, (auth env none none publicUserId s header now).result
        = GateResult.next ⟨id, "public", none, none⟩ ∧
      (auth env none none publicUserId s header now).publicUserId = some id := by
  have hprovision : ∀ p : Option Nat,
      ∃ id, (provisionPublicUser none none p s now).result
          = GateResult.next ⟨id, "public", none, none⟩ ∧
        (provisionPublicUser none none p s now).publicUserId = some id := by
    intro p
    by_cases hrow : ∃ u ∈ s.users, u.username = "public"
    · exact provisionPublicUser_found none p s now hrow
    · have hnone : ∀ u ∈ s.users, u.username ≠ "public" := fun u hu h => hrow ⟨u, hu, h⟩
      exact ⟨s.nextUserId, provisionPublicUser_created p s now hnone hemail⟩
  cases publicUserId with
  | none =>
    have h : auth env none none none s header now = provisionPublicUser none none none s now := by
      unfold auth
      rw [if_pos hmode]
    rw [h]
    exact hprovision none
  | some n =>
    by_cases hn : n = 0
    · have h : auth env none none (some n) s header now
          = provisionPublicUser none none (some n) s now := by
        unfold auth
        rw [if_pos hmode]
        simp only [if_pos hn]
      rw [h]
      exact hprovision (some n)
    · rw [auth_cached env none none n s header now hmode hn]
      exact ⟨n, rfl, rfl⟩

theorem authRun_disabled_all_continue (env : Env) (hmode : env.disableAuth = some "true")
    (s : Store) (hpos : s.userIdsPositive)
    (hemail : ∀ u ∈ s.users, u.email = "public@example.com" → u.username = "public")
    (header : Option String) (now : Nat)
    (rest : List (Option Failure × Option Failure × Option String × Nat)) :
    ∃ id, ∀ step ∈ authRun env none s ((none, none, header, now) :: rest),
      step.result = GateResult.next ⟨id, "public", none, none⟩ ∧
      step.publicUserId = some id := by
  have hcache : cacheNamesPublicUser none s := by
    intro n hn
    cases hn
  obtain ⟨id', hres', _⟩ := auth_disabled_continues env hmode none s header now hemail
  rcases auth_disabled_step env none none none s header now hmode hpos hcache
    with ⟨hfail, _, _⟩ | ⟨id, hid, hres, hp, _, _⟩
  · rw [hfail] at hres'
    cases hres'
  · refine ⟨id, ?_⟩
    intro step hstep
    simp only [authRun, List.mem_cons] at hstep
    rcases hstep with hstep | hstep
    · rw [hstep]
      exact ⟨hres, hp⟩
    · rw [hp] at hstep
      rw [authRun_cached env id _ hmode hid rest step hstep]
      exact ⟨rfl, rfl⟩

/-- C7: with authentication disabled, in a process started with an empty cache
over a store whose user ids come from a serial key: every request either
continues with the identity `{id, username: 'public'}`, where `id` is the cached
id of a `public` row of the store, or is answered with the 500 of the
provisioning failure, never with a 401; the Authorization header plays no part;
after the first request that continues, no later request issues a query, and
each attaches the same identity over the same store; a rejected lookup, and a
rejected insert when no `public` row exists, each give that 500.  A request whose
queries are not rejected continues with the public identity, from any state of
the cache, when nobody but `public` holds the address `public@example.com`, and
so does a request whose lookup is not rejected when a `public` row exists; when
the first request of a process is such a request, every request of the process
continues, all with the same identity, whatever fails later. -/
theorem auth_disabled_mode (env : Env) (hmode : env.disableAuth = some "true") (s : Store)
    (hpos : s.userIdsPositive)
    (reqs : List (Option Failure × Option Failure × Option String × Nat)) :
    (∀ step ∈ authRun env none s reqs,
      (∃ id, step.result = GateResult.next ⟨id, "public", none, none⟩ ∧
        step.publicUserId = some id ∧
        ∃ u ∈ step.store.users, u.username = "public" ∧ u.id = id) ∨
      step.result = GateResult.respond provisioningFailed) ∧
    (∀ lookupFault insertFault publicUserId s' header header' now,
      auth env lookupFault insertFault publicUserId s' header now =
        auth env lookupFault insertFault publicUserId s' header' now) ∧
    (∀ (pre : List GateStep) (step : GateStep) (post : List GateStep),
      authRun env none s reqs = pre ++ step :: post →
      (∃ user, step.result = GateResult.next user) →
      ∀ st ∈ post, st.queries = [] ∧ st.result = step.result ∧ st.store = step.store ∧
        st.publicUserId = step.publicUserId) ∧
    (∀ e insertFault s' header now,
      (auth env (some e) insertFault none s' header now).result
        = GateResult.respond provisioningFailed) ∧
    (∀ e s' header now, (∀ u ∈ s'.users, u.username ≠ "public") →
      (auth env none (some e) none s' header now).result
        = GateResult.respond provisioningFailed) ∧
    provisioningFailed.status = 500 ∧
    (∀ publicUserId s' header now,
      (∀ u ∈ s'.users, u.email = "public@example.com" → u.username = "public") →
      ∃ id, (auth env none none publicUserId s' header now).result
          = GateResult.next ⟨id, "public", none, none⟩ ∧
        (auth env none none publicUserId s' header now).publicUserId = some id) ∧
    (∀ insertFault s' header now, (∃ u ∈ s'.users, u.username = "public") →
      ∃ id, (auth env none insertFault none s' header now).result
          = GateResult.next ⟨id, "public", none, none⟩ ∧
        (auth env none insertFault none s' header now).publicUserId = some id) ∧
    ((∀ u ∈ s.users, u.email = "public@example.com" → u.username = "public") →
      ∀ header now rest,
        ∃ id, ∀ step ∈ authRun env none s ((none, none, header, now) :: rest),
          step.result = GateResult.next ⟨id, "public", none, none⟩ ∧
          step.publicUserId = some id) := by
  have hcache : cacheNamesPublicUser none s := by
    intro n hn
    cases hn
  refine ⟨authRun_disabled_steps env hmode reqs none s hpos hcache, ?_,
    authRun_disabled_once env hmode reqs none s hpos hcache, ?_, ?_, rfl,
    fun publicUserId s' header now hemail =>
      auth_disabled_continues env hmode publicUserId s' header now hemail,
    ?_,
    fun hemail header now rest =>
      authRun_disabled_all_continue env hmode s hpos hemail header now rest⟩
  · intro lookupFault insertFault publicUserId s' header header' now
    unfold auth
    rw [if_pos hmode, if_pos hmode]
  · intro e insertFault s' header now
    unfold auth
    rw [if_pos hmode]
    rfl
  · intro e s' header now hnone
    have hfilter : s'.users.filter (fun u => u.username == "public") = [] := by
      rw [List.filter_eq_nil_iff]
      intro u hu
      simpa using hnone u hu
    unfold auth
    rw [if_pos hmode]
    simp only [provisionPublicUser, hfilter]
  · intro insertFault s' header now hrow
    have h : auth env none insertFault none s' header now
        = provisionPublicUser none insertFault none s' now := by
      unfold auth
      rw [if_pos hmode]
    rw [h]
    exact provisionPublicUser_found insertFault none s' now hrow

theorem auth_disabled_mode_witness :
    sampleOpenEnv.disableAuth = some "true" ∧ sampleStore.userIdsPositive ∧
    (∀ step ∈ authRun sampleOpenEnv none sampleStore sampleRequests,
      (∃ id, step.result = GateResult.next ⟨id, "public", none, none⟩ ∧
        step.publicUserId = some id ∧
        ∃ u ∈ step.store.users, u.username = "public" ∧ u.id = id) ∨
      step.result = GateResult.respond provisioningFailed) ∧
    (∀ st ∈ authRun sampleOpenEnv (some 1)
        (auth sampleOpenEnv none none none sampleStore none 1).store [(none, none, some "x", 2)],
      st.queries = [] ∧
      st.result = (auth sampleOpenEnv none none none sampleStore none 1).result ∧
      st.store = (auth sampleOpenEnv none none none sampleStore none 1).store ∧
      st.publicUserId = (auth sampleOpenEnv none none none sampleStore none 1).publicUserId) ∧
    (∃ id, ∀ step ∈ authRun sampleOpenEnv none sampleStore sampleRequests,
      step.result = GateResult.next ⟨id, "public", none, none⟩ ∧ step.publicUserId = some id) ∧
    (authRun sampleOpenEnv none sampleStore sampleRequests).map GateStep.result
      = [GateResult.next ⟨1, "public", none, none⟩, GateResult.next ⟨1, "public", none, none⟩] :=
  have hpos : sampleStore.userIdsPositive := ⟨by simp [sampleStore], by decide⟩
  have h := auth_disabled_mode sampleOpenEnv rfl sampleStore hpos sampleRequests
  ⟨rfl, hpos, h.1,
    h.2.2.1 [] (auth sampleOpenEnv none none none sampleStore none 1)
      (authRun sampleOpenEnv (some 1) (auth sampleOpenEnv none none none sampleStore none 1).store
        [(none, none, some "x", 2)]) rfl ⟨⟨1, "public", none, none⟩, by decide⟩,
    h.2.2.2.2.2.2.2.2 (by simp [sampleStore]) none 1 [(none, none, some "x", 2)],
    by decide⟩

/-! ## Facts about registration, login and the token round trip -/

/-- C8: when a user with the same username or the same email exists, a
registration whose lookup goes through is answered 400 `Username or email
already exists`; whether or not the lookup goes through, the store is left as it
was (no row is inserted) and the response carries no token. -/
theorem register_duplicate_rejected (env : Env) (selectFault insertFault : Option Failure)
    (s : Store) (username email password : String) (salt now : Nat)
    (hdup : ∃ u ∈ s.users, u.username = username ∨ u.email = email) :
    register env none insertFault s username email password salt now
      = (⟨400, Body.error "Username or email already exists"⟩, s) ∧
    (register env selectFault insertFault s username email password salt now).2 = s ∧
    (∀ user token,
      (register env selectFault insertFault s username email password salt now).1.body
        ≠ Body.session user token) := by
  obtain ⟨u, hu, hmatch⟩ := hdup
  have hin : u ∈ s.users.filter (fun u => u.username == username || u.email == email) := by
    rw [List.mem_filter]
    refine ⟨hu, ?_⟩
    simpa using hmatch
  have hnone : register env none insertFault s username email password salt now
      = (⟨400, Body.error "Username or email already exists"⟩, s) := by
    unfold register
    cases hrows : s.users.filter (fun u => u.username == username || u.email == email) with
    | nil => rw [hrows] at hin; cases hin
    | cons r rest => rfl
  refine ⟨hnone, ?_, ?_⟩
  · cases selectFault with
    | none => rw [hnone]
    | some e => rfl
  · intro user token
    cases selectFault with
    | none =>
      rw [hnone]
      intro h
      cases h
    | some e =>
      intro h
      cases h

theorem register_duplicate_rejected_witness :
    (∃ u ∈ sampleWithAlice.users, u.username = "alice" ∨ u.email = "b@x") ∧
    register sampleEnv none none sampleWithAlice "alice" "b@x" "pw2" 5 6
      = (⟨400, Body.error "Username or email already exists"⟩, sampleWithAlice) ∧
    (register sampleEnv none none sampleWithAlice "alice" "b@x" "pw2" 5 6).2 = sampleWithAlice ∧
    (∀ user token,
      (register sampleEnv none none sampleWithAlice "alice" "b@x" "pw2" 5 6).1.body
        ≠ Body.session user token) :=
  ⟨⟨sampleAlice, by simp [sampleWithAlice], Or.inl rfl⟩,
    register_duplicate_rejected sampleEnv none none sampleWithAlice "alice" "b@x" "pw2" 5 6
      ⟨sampleAlice, by simp [sampleWithAlice], Or.inl rfl⟩⟩

theorem replaceFirst_append (pattern replacement rest : List Char) (hne : pattern ≠ []) :
    replaceFirst pattern replacement (pattern ++ rest) = replacement ++ rest := by
  cases pattern with
  | nil => exact absurd rfl hne
  | cons c cs =>
    have hdrop : List.drop (cs.length + 1) (c :: (cs ++ rest)) = rest := by
      simp
    simp only [List.cons_append, replaceFirst, List.length_cons]
    rw [if_pos (by simp)]
    exact congrArg (fun l => replacement ++ l) hdrop

theorem bearerToken_bearer (token : String) :
    bearerToken (some ("Bearer " ++ token)) = some token := by
  simp only [bearerToken, Option.map_some', String.data_append]
  rw [replaceFirst_append _ _ _ (by decide)]
  rfl

theorem auth_accepts_issued_token (env : Env) (hmode : env.disableAuth ≠ some "true")
    (hlib : env.jwt.Sound) (id : Nat) (username token : String) (now later : Nat)
    (hsign : env.jwt.sign id username env.jwtSecret sevenDays now = Except.ok token)
    (hlater : later < now + sevenDays) (lookupFault insertFault : Option Failure)
    (publicUserId : Option Nat) (s : Store) :
    ∃ claims,
      (auth env lookupFault insertFault publicUserId s (some ("Bearer " ++ token)) later).result
        = GateResult.next claims ∧ claims.id = id ∧ claims.username = username := by
  obtain ⟨hne, hverify⟩ := hlib id username env.jwtSecret sevenDays now token hsign
  obtain ⟨claims, hclaims, hid, hname⟩ := hverify later hlater
  refine ⟨claims, ?_, hid, hname⟩
  unfold auth
  rw [if_neg hmode, bearerToken_bearer]
  simp only [if_neg hne, hclaims]

theorem register_created (env : Env) (selectFault insertFault : Option Failure) (s s' : Store)
    (username email password : String) (salt now : Nat) (user : UserJson) (token : String)
    (h : register env selectFault insertFault s username email password salt now
      = (⟨201, Body.session user token⟩, s')) :
    ∃ row, row ∈ s'.users ∧ row ∉ s.users ∧ row.username = username ∧ row.email = email ∧
      user = ⟨row.id, row.username, row.email, some row.created_at⟩ ∧
      env.jwt.sign row.id row.username env.jwtSecret sevenDays now = Except.ok token := by
  unfold register at h
  cases selectFault with
  | some e => simp at h
  | none =>
    cases hrows : s.users.filter (fun u => u.username == username || u.email == email) with
    | cons r rest => simp [hrows] at h
    | nil =>
      cases hhash : env.bcrypt.hash password 10 salt with
      | error e => simp [hrows, hhash] at h
      | ok passwordHash =>
        cases insertFault with
        | some e => simp [hrows, hhash] at h
        | none =>
          simp only [hrows, hhash] at h
          unfold insertUser at h
          split_ifs at h with hdup
          · simp at h
          · simp only at h
            cases hsign : env.jwt.sign s.nextUserId username env.jwtSecret sevenDays now with
            | error e => simp [hsign] at h
            | ok issued =>
              simp only [hsign, Prod.mk.injEq, Response.mk.injEq, Body.session.injEq,
                true_and] at h
              obtain ⟨⟨huser, htoken⟩, hstore⟩ := h
              refine ⟨⟨s.nextUserId, username, email, passwordHash, now⟩, ?_, ?_, rfl, rfl,
                huser.symm, ?_⟩
              · rw [← hstore]
                simp
              · intro hmem
                have hmem' : (⟨s.nextUserId, username, email, passwordHash, now⟩ : User) ∈
                    s.users.filter (fun u => u.username == username || u.email == email) := by
                  rw [List.mem_filter]
                  exact ⟨hmem, by simp⟩
                rw [hrows] at hmem'
                cases hmem'
              · rw [← htoken]
                exact hsign

theorem login_succeeded (env : Env) (selectFault : Option Failure) (s : Store)
    (username password : String) (now : Nat) (user : UserJson) (token : String)
    (h : login env selectFault s username password now = ⟨200, Body.session user token⟩) :
    ∃ row, (s.users.filter (fun u => u.username == username)).head? = some row ∧
      env.bcrypt.compare password row.password_hash = Except.ok true ∧
      user = ⟨row.id, row.username, row.email, none⟩ ∧
      env.jwt.sign row.id row.username env.jwtSecret sevenDays now = Except.ok token := by
  unfold login at h
  cases selectFault with
  | some e => simp at h
  | none =>
    cases hrows : s.users.filter (fun u => u.username == username) with
    | nil => simp [hrows] at h
    | cons row rest =>
      cases hcmp : env.bcrypt.compare password row.password_hash with
      | error e => simp [hrows, hcmp] at h
      | ok isValidPassword =>
        cases isValidPassword with
        | false => simp [hrows, hcmp] at h
        | true =>
          cases hsign : env.jwt.sign row.id row.username env.jwtSecret sevenDays now with
          | error e => simp [hrows, hcmp, hsign] at h
          | ok issued =>
            simp only [hrows, hcmp, hsign, Bool.not_true, Bool.false_eq_true, if_false,
              Response.mk.injEq, Body.session.injEq, true_and] at h
            exact ⟨row, rfl, hcmp, h.1.symm, by rw [← h.2, hsign]⟩

theorem span_replicate_dot (c : Char) (hc : ('.' == c) = false) (n : Nat) (rest : List Char) :
    (List.replicate n c ++ '.' :: rest).span (fun x => x == c)
      = (List.replicate n c, '.' :: rest) := by
  have hall : ∀ a ∈ List.replicate n c, (fun x => x == c) a = true := by
    intro a ha
    rw [List.eq_of_mem_replicate ha]
    simp
  rw [List.span_eq_take_drop, List.takeWhile_append_of_pos hall,
    List.dropWhile_append_of_pos hall, List.takeWhile_cons, List.dropWhile_cons]
  simp [hc]

theorem sampleJwt_sound : sampleJwt.Sound := by
  intro id username secret expiresIn now token hsign
  simp only [sampleJwt, Except.ok.injEq] at hsign
  subst hsign
  constructor
  · intro h
    have hdata := congrArg String.data h
    simp at hdata
  · intro later hlater
    have hday : later / daySeconds ≤ (now + expiresIn) / daySeconds :=
      Nat.div_le_div_right (Nat.le_of_lt hlater)
    refine ⟨⟨id, username, none, some ((now + expiresIn) / daySeconds * daySeconds)⟩, ?_, rfl, rfl⟩
    simp only [sampleJwt]
    rw [span_replicate_dot 'i' (by decide)]
    simp only
    rw [span_replicate_dot 'e' (by decide)]
    simp only
    rw [span_replicate_dot 's' (by decide)]
    simp only [List.length_replicate, List.take_left, List.drop_left]
    rw [if_pos ⟨trivial, hday⟩]

/-- C9: with a token library that verifies what it has signed, in normal mode.
A registration answered 201 returns the token `jwt.sign` produced under the
configured secret, with the seven-day expiry, for the id and username of the
row it has just inserted; a login answered 200 returns such a token for the row
it has found.  Presented as `Bearer <token>` before the expiry, either token
makes the Auth Gate continue with an identity whose id and username are those
of that row. -/
theorem token_round_trip (env : Env) (hmode : env.disableAuth ≠ some "true")
    (hlib : env.jwt.Sound) :
    (∀ (selectFault insertFault : Option Failure) (s s' : Store)
        (username email password : String) (salt now : Nat) (user : UserJson) (token : String),
      register env selectFault insertFault s username email password salt now
        = (⟨201, Body.session user token⟩, s') →
      (∃ row ∈ s'.users, row ∉ s.users ∧ row.username = username ∧ user.id = row.id ∧
        user.username = row.username ∧
        env.jwt.sign row.id row.username env.jwtSecret sevenDays now = Except.ok token) ∧
      ∀ later, later < now + sevenDays →
        ∀ (lookupFault gateFault : Option Failure) (publicUserId : Option Nat) (store : Store),
          ∃ claims,
            (auth env lookupFault gateFault publicUserId store (some ("Bearer " ++ token))
              later).result = GateResult.next claims ∧
            claims.id = user.id ∧ claims.username = user.username) ∧
    (∀ (selectFault : Option Failure) (s : Store) (username password : String) (now : Nat)
        (user : UserJson) (token : String),
      login env selectFault s username password now = ⟨200, Body.session user token⟩ →
      (∃ row ∈ s.users, row.username = username ∧ user.id = row.id ∧
        user.username = row.username ∧
        env.jwt.sign row.id row.username env.jwtSecret sevenDays now = Except.ok token) ∧
      ∀ later, later < now + sevenDays →
        ∀ (lookupFault gateFault : Option Failure) (publicUserId : Option Nat) (store : Store),
          ∃ claims,
            (auth env lookupFault gateFault publicUserId store (some ("Bearer " ++ token))
              later).result = GateResult.next claims ∧
            claims.id = user.id ∧ claims.username = user.username) := by
  constructor
  · intro selectFault insertFault s s' username email password salt now user token h
    obtain ⟨row, hmem, hnew, hname, _, huser, hsign⟩ :=
      register_created env selectFault insertFault s s' username email password salt now user
        token h
    subst huser
    refine ⟨⟨row, hmem, hnew, hname, rfl, rfl, hsign⟩, ?_⟩
    intro later hlater lookupFault gateFault publicUserId store
    exact auth_accepts_issued_token env hmode hlib row.id row.username token now later hsign
      hlater lookupFault gateFault publicUserId store
  · intro selectFault s username password now user token h
    obtain ⟨row, hhead, _, huser, hsign⟩ :=
      login_succeeded env selectFault s username password now user token h
    subst huser
    have hin : row ∈ s.users.filter (fun u => u.username == username) :=
      List.mem_of_mem_head? hhead
    rw [List.mem_filter, beq_iff_eq] at hin
    refine ⟨⟨row, hin.1, hin.2, rfl, rfl, hsign⟩, ?_⟩
    intro later hlater lookupFault gateFault publicUserId store
    exact auth_accepts_issued_token env hmode hlib row.id row.username token now later hsign
      hlater lookupFault gateFault publicUserId store

theorem token_round_trip_witness :
    sampleEnv.disableAuth ≠ some "true" ∧ sampleEnv.jwt.Sound ∧
    register sampleEnv none none sampleStore "alice" "a@x" "pw" 3 4
      = (⟨201, Body.session ⟨1, "alice", "a@x", some 4⟩ "i.eeeeeee.s.kalice"⟩, sampleWithAlice) ∧
    (∃ claims,
      (auth sampleEnv none none none sampleWithAlice (some ("Bearer " ++ "i.eeeeeee.s.kalice"))
        100).result = GateResult.next claims ∧
      claims.id = 1 ∧ claims.username = "alice") ∧
    login sampleEnv none sampleWithAlice "alice" "pw" 9
      = ⟨200, Body.session ⟨1, "alice", "a@x", none⟩ "i.eeeeeee.s.kalice"⟩ ∧
    (∃ claims,
      (auth sampleEnv none none none sampleWithAlice (some ("Bearer " ++ "i.eeeeeee.s.kalice"))
        200).result = GateResult.next claims ∧
      claims.id = 1 ∧ claims.username = "alice") :=
  have h := token_round_trip sampleEnv (by decide) sampleJwt_sound
  ⟨by decide, sampleJwt_sound, by decide,
    (h.1 none none sampleStore sampleWithAlice "alice" "a@x" "pw" 3 4 ⟨1, "alice", "a@x", some 4⟩
      "i.eeeeeee.s.kalice" (by decide)).2 100 (by decide) none none none sampleWithAlice,
    by decide,
    (h.2 none sampleWithAlice "alice" "pw" 9 ⟨1, "alice", "a@x", none⟩ "i.eeeeeee.s.kalice"
      (by decide)).2 200 (by decide) none none none sampleWithAlice⟩

/-- C10: a login with a username the store does not know and a login with a
known username and a password that `bcrypt.compare` rejects are answered with
the same response, 401 `Invalid credentials`, which carries no token.  When
`jwt.sign` does not fail, a login whose query goes through is answered 200
exactly when a row with the username exists and `bcrypt.compare` accepts the
password against the stored hash of the row the query returns first, and the
200 response carries a token. -/
theorem login_failures_indistinguishable (env : Env) (s : Store) (now : Nat) :
    (∀ (unknown known password wrong : String) (row : User),
      (∀ u ∈ s.users, u.username ≠ unknown) →
      (s.users.filter (fun u => u.username == known)).head? = some row →
      env.bcrypt.compare wrong row.password_hash = Except.ok false →
      login env none s unknown password now = login env none s known wrong now ∧
      login env none s known wrong now = ⟨401, Body.error "Invalid credentials"⟩) ∧
    (∀ (username password : String),
      (∀ id name, ∃ token, env.jwt.sign id name env.jwtSecret sevenDays now = Except.ok token) →
      (((login env none s username password now).status = 200 ↔
        ∃ row, (s.users.filter (fun u => u.username == username)).head? = some row ∧
          env.bcrypt.compare password row.password_hash = Except.ok true) ∧
      ((login env none s username password now).status = 200 →
        ∃ user token, login env none s username password now
          = ⟨200, Body.session user token⟩))) := by
  constructor
  · intro unknown known password wrong row hunknown hknown hwrong
    have hnone : s.users.filter (fun u => u.username == unknown) = [] := by
      rw [List.filter_eq_nil_iff]
      intro u hu
      simpa using hunknown u hu
    have h₁ : login env none s unknown password now = ⟨401, Body.error "Invalid credentials"⟩ := by
      simp only [login, hnone]
    have h₂ : login env none s known wrong now = ⟨401, Body.error "Invalid credentials"⟩ := by
      cases hrows : s.users.filter (fun u => u.username == known) with
      | nil => rw [hrows] at hknown; cases hknown
      | cons r rest =>
        rw [hrows] at hknown
        simp only [List.head?_cons, Option.some.injEq] at hknown
        subst hknown
        simp [login, hrows, hwrong]
    exact ⟨h₁.trans h₂.symm, h₂⟩
  · intro username password hsign
    cases hrows : s.users.filter (fun u => u.username == username) with
    | nil =>
      have h : login env none s username password now
          = ⟨401, Body.error "Invalid credentials"⟩ := by
        simp only [login, hrows]
      rw [h]
      simp
    | cons r rest =>
      obtain ⟨token, htoken⟩ := hsign r.id r.username
      cases hcmp : env.bcrypt.compare password r.password_hash with
      | error e =>
        have h : login env none s username password now = ⟨500, Body.error "Failed to log in"⟩ := by
          simp only [login, hrows, hcmp]
        rw [h]
        simp [hcmp]
      | ok isValidPassword =>
        cases isValidPassword with
        | false =>
          have h : login env none s username password now
              = ⟨401, Body.error "Invalid credentials"⟩ := by
            simp [login, hrows, hcmp]
          rw [h]
          simp [hcmp]
        | true =>
          have h : login env none s username password now
              = ⟨200, Body.session ⟨r.id, r.username, r.email, none⟩ token⟩ := by
            simp [login, hrows, hcmp, htoken]
          rw [h]
          simp [hcmp]

theorem login_failures_indistinguishable_witness :
    (login sampleEnv none sampleWithAlice "bob" "pw" 9
        = login sampleEnv none sampleWithAlice "alice" "pwx" 9 ∧
      login sampleEnv none sampleWithAlice "alice" "pwx" 9
        = ⟨401, Body.error "Invalid credentials"⟩) ∧
    ((login sampleEnv none sampleWithAlice "alice" "pw" 9).status = 200 ↔
      ∃ row, (sampleWithAlice.users.filter (fun u => u.username == "alice")).head? = some row ∧
        sampleEnv.bcrypt.compare "pw" row.password_hash = Except.ok true) ∧
    ((login sampleEnv none sampleWithAlice "alice" "pw" 9).status = 200 →
      ∃ user token, login sampleEnv none sampleWithAlice "alice" "pw" 9
        = ⟨200, Body.session user token⟩) :=
  have h := login_failures_indistinguishable sampleEnv sampleWithAlice 9
  ⟨h.1 "bob" "alice" "pw" "pwx" sampleAlice (by simp [sampleWithAlice, sampleAlice]) (by decide)
      rfl,
    h.2 "alice" "pw" (fun _ _ => ⟨_, rfl⟩)⟩

/-! ## Facts about statistics and comments -/

theorem countStatus_cons (c : Call) (calls : List Call) (status : String) :
    countStatus (c :: calls) status
      = countStatus calls status + if c.status = Value.str status then 1 else 0 := by
  simp [countStatus, List.countP_cons]

theorem countStatus_filter (calls : List Call) (userId : Nat) (status : String) :
    countStatus (calls.filter (fun c => c.user_id == userId)) status
      = calls.countP (fun c => c.user_id == userId && c.status == Value.str status) := by
  unfold countStatus
  rw [List.countP_filter]
  congr 1
  funext c
  exact Bool.and_comm _ _

theorem statusCounts_le_length (calls : List Call) :
    countStatus calls "Active" + countStatus calls "Pending" + countStatus calls "Followed Up" +
      countStatus calls "Not Received Call" + countStatus calls "Completed" ≤ calls.length := by
  induction calls with
  | nil => simp [countStatus]
  | cons c rest ih =>
    simp only [countStatus_cons, List.length_cons]
    have hone : (if c.status = Value.str "Active" then 1 else 0) +
        (if c.status = Value.str "Pending" then 1 else 0) +
        (if c.status = Value.str "Followed Up" then 1 else 0) +
        (if c.status = Value.str "Not Received Call" then 1 else 0) +
        (if c.status = Value.str "Completed" then 1 else 0) ≤ 1 := by
      by_cases h₁ : c.status = Value.str "Active"
      · rw [h₁]
        decide
      · by_cases h₂ : c.status = Value.str "Pending"
        · rw [h₂]
          decide
        · by_cases h₃ : c.status = Value.str "Followed Up"
          · rw [h₃]
            decide
          · by_cases h₄ : c.status = Value.str "Not Received Call"
            · rw [h₄]
              decide
            · rw [if_neg h₁, if_neg h₂, if_neg h₃, if_neg h₄]
              split_ifs <;> omega
    omega

/-- C11: `GET /calls/stats` whose query goes through answers with one row in
which `total_calls` is the number of calls owned by the caller and each of the
five status counts is the number of calls owned by the caller whose status is
exactly that string; the row is the same when the calls of all other users are
taken out of the store, and the five counts add up to at most `total_calls`. -/
theorem callStats_counts (s : Store) (userId : Nat) :
    ∃ row, callStats none s userId = ⟨200, Body.stats row⟩ ∧
      row.total_calls = s.calls.countP (fun c => c.user_id == userId) ∧
      row.active_calls
        = s.calls.countP (fun c => c.user_id == userId && c.status == Value.str "Active") ∧
      row.pending_calls
        = s.calls.countP (fun c => c.user_id == userId && c.status == Value.str "Pending") ∧
      row.followed_up_calls
        = s.calls.countP (fun c => c.user_id == userId && c.status == Value.str "Followed Up") ∧
      row.not_received_calls
        = s.calls.countP
            (fun c => c.user_id == userId && c.status == Value.str "Not Received Call") ∧
      row.completed_calls
        = s.calls.countP (fun c => c.user_id == userId && c.status == Value.str "Completed") ∧
      callStats none { s with calls := s.calls.filter (fun c => c.user_id == userId) } userId
        = ⟨200, Body.stats row⟩ ∧
      row.active_calls + row.pending_calls + row.followed_up_calls + row.not_received_calls +
        row.completed_calls ≤ row.total_calls := by
  refine ⟨selectStats s userId, rfl, ?_, countStatus_filter _ _ _, countStatus_filter _ _ _,
    countStatus_filter _ _ _, countStatus_filter _ _ _, countStatus_filter _ _ _, ?_,
    statusCounts_le_length _⟩
  · simp only [selectStats]
    rw [List.countP_eq_length_filter]
  · simp only [callStats, selectStats, List.filter_filter, Bool.and_self]

theorem ownedBy_iff (id userId : Nat) (c : Call) :
    ownedBy id userId c = true ↔ (c.id = id ∧ c.user_id = userId) := by
  simp [ownedBy]

/-- C12: add-comment whose queries go through.  When the caller owns a call with
that id, exactly one comment is appended, with that call as `call_id`, the
caller as `user_id` and the submitted text unchanged, and it is returned with
201.  When the caller owns no call with that id the answer is 404 `Call not
found` and the store is unchanged.  Whatever fails, a response other than 201
leaves the store unchanged. -/
theorem addComment_scoped_to_owner (s : Store) (userId id : Nat) (text : Value) (now : Nat) :
    ((∃ c ∈ s.calls, c.id = id ∧ c.user_id = userId) →
      ∃ row, addComment none none s userId id text now
          = (⟨201, Body.comment row⟩,
              { s with comments := s.comments ++ [row], nextCommentId := s.nextCommentId + 1 }) ∧
        row.call_id = id ∧ row.user_id = userId ∧ row.text = text) ∧
    ((∀ c ∈ s.calls, ¬ (c.id = id ∧ c.user_id = userId)) →
      ∀ insertFault, addComment none insertFault s userId id text now
        = (⟨404, Body.error "Call not found"⟩, s)) ∧
    (∀ checkFault insertFault,
      (addComment checkFault insertFault s userId id text now).1.status ≠ 201 →
      (addComment checkFault insertFault s userId id text now).2 = s) := by
  refine ⟨?_, ?_, ?_⟩
  · rintro ⟨c, hc, hid, huser⟩
    have hin : c ∈ s.calls.filter (ownedBy id userId) :=
      List.mem_filter.2 ⟨hc, (ownedBy_iff id userId c).2 ⟨hid, huser⟩⟩
    refine ⟨⟨s.nextCommentId, id, userId, text, now, now⟩, ?_, rfl, rfl, rfl⟩
    unfold addComment
    cases hrows : s.calls.filter (ownedBy id userId) with
    | nil => rw [hrows] at hin; cases hin
    | cons r rest => rfl
  · intro h insertFault
    have hnone : s.calls.filter (ownedBy id userId) = [] := by
      rw [List.filter_eq_nil_iff]
      intro c hc
      rw [ownedBy_iff]
      exact h c hc
    simp only [addComment, hnone]
  · intro checkFault insertFault hstatus
    unfold addComment at hstatus ⊢
    cases checkFault with
    | some e => rfl
    | none =>
      cases hrows : s.calls.filter (ownedBy id userId) with
      | nil => rfl
      | cons r rest =>
        cases insertFault with
        | some e => rfl
        | none =>
          rw [hrows] at hstatus
          exact absurd rfl hstatus

theorem addComment_scoped_to_owner_witness :
    (∃ row, addComment none none sampleStore 7 1 (Value.str "called back") 30
        = (⟨201, Body.comment row⟩,
            { sampleStore with comments := sampleStore.comments ++ [row],
                               nextCommentId := sampleStore.nextCommentId + 1 }) ∧
      row.call_id = 1 ∧ row.user_id = 7 ∧ row.text = Value.str "called back") ∧
    (∀ insertFault, addComment none insertFault sampleStore 8 1 (Value.str "called back") 30
      = (⟨404, Body.error "Call not found"⟩, sampleStore)) ∧
    (addComment none (some ⟨none⟩) sampleStore 7 1 (Value.str "called back") 30).2 = sampleStore :=
  have h := addComment_scoped_to_owner sampleStore
  ⟨(h 7 1 (Value.str "called back") 30).1 ⟨sampleCall, by simp [sampleStore], rfl, rfl⟩,
    (h 8 1 (Value.str "called back") 30).2.1 (by simp [sampleStore, sampleCall]),
    (h 7 1 (Value.str "called back") 30).2.2 none (some ⟨none⟩) (by decide)⟩

/-! ## Facts about attachments -/

theorem mem_ownedComments (s : Store) (commentId userId : Nat) (c : Comment) :
    c ∈ ownedComments s commentId userId ↔
      c ∈ s.comments ∧ c.id = commentId ∧
        ∃ cl ∈ s.calls, cl.id = c.call_id ∧ cl.user_id = userId := by
  unfold ownedComments
  simp only [List.mem_flatMap, List.mem_map, List.mem_filter, Bool.and_eq_true, beq_iff_eq]
  constructor
  · rintro ⟨c', hc', cl, ⟨hcl, hjoin, hid, huser⟩, rfl⟩
    exact ⟨hc', hid, cl, hcl, hjoin.symm, huser⟩
  · rintro ⟨hc, hid, cl, hcl, hjoin, huser⟩
    exact ⟨c, hc, cl, ⟨hcl, hjoin.symm, hid, huser⟩, rfl⟩

theorem unlinkSync_written (files : List String) (path : String) (h : path ∈ files) :
    unlinkSync none files path = Except.ok (files.filter (fun p => p != path)) := by
  have hc : files.contains path = true := by
    simpa using h
  simp only [unlinkSync, hc, if_true]

theorem not_mem_unlinked (files : List String) (path : String) :
    path ∉ files.filter (fun p => p != path) := by
  simp [List.mem_filter]

/-- C13: an upload whose file multer has written to storage, with a file system
that carries out the unlink.  The handler always answers.  The answer is 500
when the ownership query or the insert rejects, 404 when the query goes through
and finds no comment with that id on a call of the caller, and 201 otherwise.
On every answer other than 201 the written file is gone from storage and the
store is unchanged (no attachment row); on 201 exactly one attachment row is
appended, its `storage_path` is the path of the written file, and storage is
untouched, so the file remains. -/
theorem uploadAttachment_cleans_up (checkFault insertFault : Option Failure) (s : Store)
    (files : List String) (userId commentId : Nat) (f : UploadedFile) (now : Nat)
    (hwritten : f.path ∈ files) :
    ∃ r,
      (uploadAttachment checkFault insertFault none none s files userId commentId (some f)
        now).response = some r ∧
      (r.status = 201 ∨ r.status = 404 ∨ r.status = 500) ∧
      (r.status = 500 ↔ (checkFault ≠ none ∨
        (ownedComments s commentId userId ≠ [] ∧ insertFault ≠ none))) ∧
      (r.status = 404 ↔ (checkFault = none ∧ ownedComments s commentId userId = [])) ∧
      (r.status ≠ 201 →
        f.path ∉ (uploadAttachment checkFault insertFault none none s files userId commentId
          (some f) now).files ∧
        (uploadAttachment checkFault insertFault none none s files userId commentId (some f)
          now).store = s) ∧
      (r.status = 201 →
        ∃ row, r.body = Body.attachment row ∧ row.storage_path = f.path ∧
          row.comment_id = commentId ∧
          (uploadAttachment checkFault insertFault none none s files userId commentId (some f)
            now).store.attachments = s.attachments ++ [row] ∧
          (uploadAttachment checkFault insertFault none none s files userId commentId (some f)
            now).files = files ∧
          f.path ∈ (uploadAttachment checkFault insertFault none none s files userId commentId
            (some f) now).files) := by
  have hcatch : uploadCatch none s files f
      = ⟨some ⟨500, Body.error "Failed to upload attachment"⟩, s,
          files.filter (fun p => p != f.path)⟩ := by
    simp only [uploadCatch, unlinkSync_written files f.path hwritten]
  cases checkFault with
  | some e =>
    have h : uploadAttachment (some e) insertFault none none s files userId commentId (some f) now
        = ⟨some ⟨500, Body.error "Failed to upload attachment"⟩, s,
            files.filter (fun p => p != f.path)⟩ := by
      simp only [uploadAttachment, hcatch]
    rw [h]
    refine ⟨_, rfl, Or.inr (Or.inr rfl), ?_, ?_, ?_, ?_⟩
    · simp
    · simp
    · intro _
      exact ⟨not_mem_unlinked files f.path, rfl⟩
    · intro h201
      simp at h201
  | none =>
    cases hrows : ownedComments s commentId userId with
    | nil =>
      have h : uploadAttachment none insertFault none none s files userId commentId (some f) now
          = ⟨some ⟨404, Body.error "Comment not found"⟩, s,
              files.filter (fun p => p != f.path)⟩ := by
        simp only [uploadAttachment, hrows, unlinkSync_written files f.path hwritten]
      rw [h]
      refine ⟨_, rfl, Or.inr (Or.inl rfl), ?_, ?_, ?_, ?_⟩
      · simp
      · simp
      · intro _
        exact ⟨not_mem_unlinked files f.path, rfl⟩
      · intro h201
        simp at h201
    | cons c rest =>
      cases insertFault with
      | some e =>
        have h : uploadAttachment none (some e) none none s files userId commentId (some f) now
            = ⟨some ⟨500, Body.error "Failed to upload attachment"⟩, s,
                files.filter (fun p => p != f.path)⟩ := by
          simp only [uploadAttachment, hrows, hcatch]
        rw [h]
        refine ⟨_, rfl, Or.inr (Or.inr rfl), ?_, ?_, ?_, ?_⟩
        · simp
        · simp
        · intro _
          exact ⟨not_mem_unlinked files f.path, rfl⟩
        · intro h201
          simp at h201
      | none =>
        have h : uploadAttachment none none none none s files userId commentId (some f) now
            = ⟨some ⟨201, Body.attachment (insertAttachment s commentId f now).1⟩,
                (insertAttachment s commentId f now).2, files⟩ := by
          simp only [uploadAttachment, hrows]
        rw [h]
        refine ⟨_, rfl, Or.inl rfl, ?_, ?_, ?_, ?_⟩
        · simp
        · simp
        · intro hne
          exact absurd rfl hne
        · intro _
          exact ⟨_, rfl, rfl, rfl, rfl, rfl, hwritten⟩

theorem uploadAttachment_cleans_up_witness :
    sampleFile.path ∈ ["uploads/file-1.txt"] ∧
    (sampleFile.path ∉ (uploadAttachment none none none none sampleWithComment
        ["uploads/file-1.txt"] 8 1 (some sampleFile) 50).files ∧
      (uploadAttachment none none none none sampleWithComment ["uploads/file-1.txt"] 8 1
        (some sampleFile) 50).store = sampleWithComment) ∧
    (uploadAttachment none none none none sampleWithComment ["uploads/file-1.txt"] 7 1
      (some sampleFile) 50).response = some ⟨201, Body.attachment { sampleAttachment with created_at := 50 }⟩ := by
  obtain ⟨r, _, _, _, h404, hclean, _⟩ :=
    uploadAttachment_cleans_up none none sampleWithComment ["uploads/file-1.txt"] 8 1 sampleFile 50
      (by decide)
  have hne : r.status ≠ 201 := by
    have h := h404.2 ⟨rfl, by decide⟩
    omega
  exact ⟨by decide, hclean hne, by decide⟩

theorem mem_ownedAttachments (s : Store) (id userId : Nat) (a : Attachment) :
    a ∈ ownedAttachments s id userId ↔
      a ∈ s.attachments ∧ a.id = id ∧
        ∃ c ∈ s.comments, c.id = a.comment_id ∧
          ∃ cl ∈ s.calls, cl.id = c.call_id ∧ cl.user_id = userId := by
  unfold ownedAttachments
  simp only [List.mem_flatMap, List.mem_map, List.mem_filter, Bool.and_eq_true, beq_iff_eq]
  constructor
  · rintro ⟨a', ha', c, hc, cl, ⟨hcl, hac, hccl, hid, huser⟩, rfl⟩
    exact ⟨ha', hid, c, hc, hac.symm, cl, hcl, hccl.symm, huser⟩
  · rintro ⟨ha, hid, c, hc, hac, cl, hcl, hccl, huser⟩
    exact ⟨a, ha, c, hc, cl, ⟨hcl, hac.symm, hccl.symm, hid, huser⟩, rfl⟩

theorem existsSync_unlinked (files : List String) (path : String) :
    existsSync (files.filter (fun p => p != path)) path = false := by
  simp [existsSync, List.mem_filter]

theorem deleteAttachment_found (deleteFault unlinkFault : Option Failure) (s : Store)
    (files : List String) (userId id : Nat) (a : Attachment) (rest : List Attachment)
    (hrows : ownedAttachments s id userId = a :: rest)
    (hok : (deleteAttachment none deleteFault unlinkFault s files userId id).response
      = some ⟨200, Body.message "Attachment deleted successfully"⟩) :
    (deleteAttachment none deleteFault unlinkFault s files userId id).store
        = { s with attachments := s.attachments.filter (fun a' => !(a'.id == id)) } ∧
    existsSync (deleteAttachment none deleteFault unlinkFault s files userId id).files
      a.storage_path = false ∧
    (∀ p, p ∈ (deleteAttachment none deleteFault unlinkFault s files userId id).files ↔
      p ∈ files ∧ (p = a.storage_path → existsSync files a.storage_path = false)) := by
  unfold deleteAttachment at hok ⊢
  simp only [hrows] at hok ⊢
  by_cases hcond : (a.storage_path != "" && existsSync files a.storage_path) = true
  · have hex : existsSync files a.storage_path = true := by
      simp only [Bool.and_eq_true] at hcond
      exact hcond.2
    have hcontains : files.contains a.storage_path = true := by
      simp only [existsSync, Bool.and_eq_true] at hex
      exact hex.2
    simp only [hcond, if_true] at hok ⊢
    cases unlinkFault with
    | some e => simp [unlinkSync] at hok
    | none =>
      simp only [unlinkSync, hcontains, if_true] at hok ⊢
      cases deleteFault with
      | some e => simp at hok
      | none =>
        refine ⟨rfl, existsSync_unlinked files a.storage_path, ?_⟩
        intro p
        simp only [List.mem_filter, bne_iff_ne, ne_eq, hex]
        constructor
        · rintro ⟨hp, hne⟩
          exact ⟨hp, fun h => absurd h hne⟩
        · rintro ⟨hp, himp⟩
          refine ⟨hp, fun h => ?_⟩
          have := himp h
          simp at this
  · have hex : existsSync files a.storage_path = false := by
      by_cases hempty : a.storage_path = ""
      · simp [existsSync, hempty]
      · have hne : (a.storage_path != "") = true := by simpa using hempty
        rw [hne, Bool.true_and] at hcond
        simpa using hcond
    simp only [hcond] at hok ⊢
    cases deleteFault with
    | some e => simp at hok
    | none =>
      refine ⟨rfl, hex, ?_⟩
      intro p
      simp [hex]

theorem deleteAttachment_found_succeeds (s : Store) (files : List String) (userId id : Nat)
    (a : Attachment) (rest : List Attachment)
    (hrows : ownedAttachments s id userId = a :: rest) :
    (deleteAttachment none none none s files userId id).response
      = some ⟨200, Body.message "Attachment deleted successfully"⟩ := by
  unfold deleteAttachment
  simp only [hrows]
  by_cases hcond : (a.storage_path != "" && existsSync files a.storage_path) = true
  · have hcontains : files.contains a.storage_path = true := by
      simp only [existsSync, Bool.and_eq_true] at hcond
      exact hcond.2.2
    simp only [hcond, if_true, unlinkSync, hcontains]
  · simp only [hcond]
    rfl

theorem mem_listAttachments (checkFault selectFault : Option Failure) (s : Store)
    (userId commentId : Nat) (rows : List Attachment) (a : Attachment)
    (h : listAttachments checkFault selectFault s userId commentId
      = ⟨200, Body.attachmentList rows⟩) (ha : a ∈ rows) :
    a ∈ s.attachments ∧ a.comment_id = commentId := by
  unfold listAttachments at h
  cases checkFault with
  | some e => simp at h
  | none =>
    cases hown : ownedComments s commentId userId with
    | nil => simp [hown] at h
    | cons c rest =>
      cases selectFault with
      | some e => simp [hown] at h
      | none =>
        simp only [hown, Response.mk.injEq, Body.attachmentList.injEq, true_and] at h
        rw [← h] at ha
        have hmem := (List.perm_insertionSort (fun a b : Attachment => a.created_at ≤ b.created_at)
          (s.attachments.filter (fun a => a.comment_id == commentId))).mem_iff.1 ha
        rw [List.mem_filter, beq_iff_eq] at hmem
        exact hmem

/-- C14: `DELETE /attachments/:id` whose ownership query goes through.  When no
attachment with that id hangs, through its comment, on a call of the caller, the
answer is 404 `Attachment not found` and neither the store nor storage changes.
When the attachment with that id (`id` is the key of `attachments`) does hang on
a call of the caller, the delete succeeds if nothing fails, and after every
successful delete the row is gone while all other rows, the comments and the
calls are kept, no file exists at its `storage_path`, every other file is kept,
and a fetch of the attachments of its comment does not list it. -/
theorem deleteAttachment_removes_row_and_file (s : Store) (files : List String)
    (userId id : Nat) :
    ((∀ a ∈ s.attachments, a.id = id → ∀ c ∈ s.comments, c.id = a.comment_id →
        ∀ cl ∈ s.calls, cl.id = c.call_id → cl.user_id ≠ userId) →
      ∀ deleteFault unlinkFault,
        deleteAttachment none deleteFault unlinkFault s files userId id
          = ⟨some ⟨404, Body.error "Attachment not found"⟩, s, files⟩) ∧
    (∀ a ∈ s.attachments, a.id = id → (∀ a' ∈ s.attachments, a'.id = id → a' = a) →
      (∃ c ∈ s.comments, c.id = a.comment_id ∧
        ∃ cl ∈ s.calls, cl.id = c.call_id ∧ cl.user_id = userId) →
      (deleteAttachment none none none s files userId id).response
        = some ⟨200, Body.message "Attachment deleted successfully"⟩ ∧
      ∀ deleteFault unlinkFault,
        (deleteAttachment none deleteFault unlinkFault s files userId id).response
          = some ⟨200, Body.message "Attachment deleted successfully"⟩ →
        a ∉ (deleteAttachment none deleteFault unlinkFault s files userId id).store.attachments ∧
        (∀ a', a' ∈ (deleteAttachment none deleteFault unlinkFault s files userId
            id).store.attachments ↔ a' ∈ s.attachments ∧ a' ≠ a) ∧
        (deleteAttachment none deleteFault unlinkFault s files userId id).store.comments
          = s.comments ∧
        (deleteAttachment none deleteFault unlinkFault s files userId id).store.calls = s.calls ∧
        existsSync (deleteAttachment none deleteFault unlinkFault s files userId id).files
          a.storage_path = false ∧
        (∀ p ∈ files, p ≠ a.storage_path →
          p ∈ (deleteAttachment none deleteFault unlinkFault s files userId id).files) ∧
        ∀ checkFault selectFault rows,
          listAttachments checkFault selectFault
            (deleteAttachment none deleteFault unlinkFault s files userId id).store userId
            a.comment_id = ⟨200, Body.attachmentList rows⟩ → a ∉ rows) := by
  constructor
  · intro h deleteFault unlinkFault
    have hnone : ownedAttachments s id userId = [] := by
      rw [List.eq_nil_iff_forall_not_mem]
      intro a ha
      obtain ⟨hmem, hid, c, hc, hac, cl, hcl, hccl, huser⟩ :=
        (mem_ownedAttachments s id userId a).1 ha
      exact h a hmem hid c hc hac cl hcl hccl huser
    simp only [deleteAttachment, hnone]
  · intro a ha hid hkey hown
    have hin : a ∈ ownedAttachments s id userId :=
      (mem_ownedAttachments s id userId a).2 ⟨ha, hid, hown⟩
    cases hrows : ownedAttachments s id userId with
    | nil => rw [hrows] at hin; cases hin
    | cons first rest =>
      have hfirst : first = a := by
        have hmem : first ∈ ownedAttachments s id userId := by
          rw [hrows]
          exact List.mem_cons_self first rest
        obtain ⟨hfm, hfid, _⟩ := (mem_ownedAttachments s id userId first).1 hmem
        exact hkey first hfm hfid
      subst hfirst
      refine ⟨deleteAttachment_found_succeeds s files userId id first rest hrows, ?_⟩
      intro deleteFault unlinkFault hok
      obtain ⟨hstore, hgone, hfiles⟩ :=
        deleteAttachment_found deleteFault unlinkFault s files userId id first rest hrows hok
      have hmem : ∀ a', a' ∈ (deleteAttachment none deleteFault unlinkFault s files userId
          id).store.attachments ↔ a' ∈ s.attachments ∧ a' ≠ first := by
        intro a'
        rw [hstore]
        simp only [List.mem_filter, Bool.not_eq_true', beq_eq_false_iff_ne, ne_eq]
        constructor
        · rintro ⟨hin', hne⟩
          exact ⟨hin', fun h => hne (h ▸ hid)⟩
        · rintro ⟨hin', hne⟩
          exact ⟨hin', fun h => hne (hkey a' hin' h)⟩
      refine ⟨fun h => ((hmem first).1 h).2 rfl, hmem, by rw [hstore], by rw [hstore], hgone, ?_,
        ?_⟩
      · intro p hp hne
        exact (hfiles p).2 ⟨hp, fun h => absurd h hne⟩
      · intro checkFault selectFault rows hlist hrow
        have := (mem_listAttachments checkFault selectFault _ userId first.comment_id rows first
          hlist hrow).1
        exact ((hmem first).1 this).2 rfl

theorem deleteAttachment_removes_row_and_file_witness :
    (∀ deleteFault unlinkFault,
      deleteAttachment none deleteFault unlinkFault sampleWithAttachment ["uploads/file-1.txt"] 8 1
        = ⟨some ⟨404, Body.error "Attachment not found"⟩, sampleWithAttachment,
            ["uploads/file-1.txt"]⟩) ∧
    (deleteAttachment none none none sampleWithAttachment ["uploads/file-1.txt"] 7 1).response
      = some ⟨200, Body.message "Attachment deleted successfully"⟩ ∧
    sampleAttachment ∉
      (deleteAttachment none none none sampleWithAttachment ["uploads/file-1.txt"] 7
        1).store.attachments ∧
    existsSync (deleteAttachment none none none sampleWithAttachment ["uploads/file-1.txt"] 7
      1).files sampleAttachment.storage_path = false :=
  have h := deleteAttachment_removes_row_and_file sampleWithAttachment ["uploads/file-1.txt"]
  have owned := (h 7 1).2 sampleAttachment (by simp [sampleWithAttachment]) rfl
    (by simp [sampleWithAttachment])
    ⟨sampleComment, by simp [sampleWithAttachment, sampleWithComment], rfl,
      sampleCall, by simp [sampleWithAttachment, sampleWithComment, sampleStore], rfl, rfl⟩
  have after := owned.2 none none owned.1
  ⟨(h 8 1).1 (by simp [sampleWithAttachment, sampleWithComment, sampleStore, sampleCall,
      sampleComment, sampleAttachment]),
    owned.1, after.1, after.2.2.2.2.1⟩

/-! ## Facts about the lookup lists -/

theorem insertName_ok (table : List NameRow) (nextId userId : Nat) (name : String)
    (row : NameRow) (h : insertName table nextId userId name = Except.ok row) :
    row = ⟨nextId, userId, name⟩ := by
  unfold insertName at h
  split_ifs at h
  simp only [Except.ok.injEq] at h
  exact h.symm

theorem insertName_duplicate (table : List NameRow) (nextId userId : Nat) (name : String)
    (h : ∃ r ∈ table, r.user_id = userId ∧ r.name = name) :
    insertName table nextId userId name = Except.error ⟨some "23505"⟩ := by
  have hany : table.any (fun r => r.user_id == userId && r.name == name) = true := by
    obtain ⟨r, hr, hu, hn⟩ := h
    rw [List.any_eq_true]
    exact ⟨r, hr, by simp [hu, hn]⟩
  simp only [insertName, hany, if_true]

/-- C15: add-contact-person and add-operator.  A row that is inserted carries the
caller's id as `user_id` and the submitted name, and it is the only row added.
An insert that fails with code `23505`, raised by the engine for a name the
caller already has or handed in as the failure of the query, is answered 400
with `Contact person already exists` (resp. `Operator already exists`); an
insert that fails with any other failure is answered 500; in both cases the
store is unchanged. -/
theorem addName_conflict_is_specific (s : Store) (userId : Nat) (name : String) :
    (∀ row s', addContactPerson none s userId name = (⟨201, Body.nameRow row⟩, s') →
      row.user_id = userId ∧ row.name = name ∧
      s'.contact_persons = s.contact_persons ++ [row] ∧ s'.operators = s.operators) ∧
    (∀ row s', addOperator none s userId name = (⟨201, Body.nameRow row⟩, s') →
      row.user_id = userId ∧ row.name = name ∧
      s'.operators = s.operators ++ [row] ∧ s'.contact_persons = s.contact_persons) ∧
    (∀ e : Failure, e.code = some "23505" →
      addContactPerson (some e) s userId name
        = (⟨400, Body.error "Contact person already exists"⟩, s) ∧
      addOperator (some e) s userId name = (⟨400, Body.error "Operator already exists"⟩, s)) ∧
    ((∃ r ∈ s.contact_persons, r.user_id = userId ∧ r.name = name) →
      addContactPerson none s userId name
        = (⟨400, Body.error "Contact person already exists"⟩, s)) ∧
    ((∃ r ∈ s.operators, r.user_id = userId ∧ r.name = name) →
      addOperator none s userId name = (⟨400, Body.error "Operator already exists"⟩, s)) ∧
    (∀ e : Failure, e.code ≠ some "23505" →
      addContactPerson (some e) s userId name
        = (⟨500, Body.error "Failed to add contact person"⟩, s) ∧
      addOperator (some e) s userId name = (⟨500, Body.error "Failed to add operator"⟩, s)) := by
  refine ⟨?_, ?_, ?_, ?_, ?_, ?_⟩
  · intro row s' h
    unfold addContactPerson at h
    cases hins : insertName s.contact_persons s.nextNameId userId name with
    | error e =>
      simp only [hins, nameInsertFailed] at h
      split_ifs at h <;> simp at h
    | ok inserted =>
      simp only [hins, Prod.mk.injEq, Response.mk.injEq, Body.nameRow.injEq, true_and] at h
      obtain ⟨hrow, hs⟩ := h
      subst hrow
      subst hs
      rw [insertName_ok _ _ _ _ _ hins]
      exact ⟨rfl, rfl, rfl, rfl⟩
  · intro row s' h
    unfold addOperator at h
    cases hins : insertName s.operators s.nextNameId userId name with
    | error e =>
      simp only [hins, nameInsertFailed] at h
      split_ifs at h <;> simp at h
    | ok inserted =>
      simp only [hins, Prod.mk.injEq, Response.mk.injEq, Body.nameRow.injEq, true_and] at h
      obtain ⟨hrow, hs⟩ := h
      subst hrow
      subst hs
      rw [insertName_ok _ _ _ _ _ hins]
      exact ⟨rfl, rfl, rfl, rfl⟩
  · intro e he
    simp only [addContactPerson, addOperator, nameInsertFailed, he, if_true, and_self]
  · intro h
    simp only [addContactPerson, insertName_duplicate _ _ _ _ h, nameInsertFailed, if_true]
  · intro h
    simp only [addOperator, insertName_duplicate _ _ _ _ h, nameInsertFailed, if_true]
  · intro e he
    simp only [addContactPerson, addOperator, nameInsertFailed, if_neg he, and_self]

theorem addName_conflict_is_specific_witness :
    (addContactPerson none sampleStore 7 "Ann").1 = ⟨201, Body.nameRow ⟨1, 7, "Ann"⟩⟩ ∧
    ((⟨1, 7, "Ann"⟩ : NameRow).user_id = 7 ∧ (⟨1, 7, "Ann"⟩ : NameRow).name = "Ann" ∧
      (addContactPerson none sampleStore 7 "Ann").2.contact_persons
        = sampleStore.contact_persons ++ [⟨1, 7, "Ann"⟩] ∧
      (addContactPerson none sampleStore 7 "Ann").2.operators = sampleStore.operators) ∧
    (addContactPerson (some ⟨some "23505"⟩) sampleStore 7 "Ann"
        = (⟨400, Body.error "Contact person already exists"⟩, sampleStore) ∧
      addOperator (some ⟨some "23505"⟩) sampleStore 7 "Ann"
        = (⟨400, Body.error "Operator already exists"⟩, sampleStore)) ∧
    addContactPerson none (addContactPerson none sampleStore 7 "Ann").2 7 "Ann"
      = (⟨400, Body.error "Contact person already exists"⟩,
          (addContactPerson none sampleStore 7 "Ann").2) ∧
    (addContactPerson (some ⟨some "08006"⟩) sampleStore 7 "Ann"
        = (⟨500, Body.error "Failed to add contact person"⟩, sampleStore) ∧
      addOperator (some ⟨some "08006"⟩) sampleStore 7 "Ann"
        = (⟨500, Body.error "Failed to add operator"⟩, sampleStore)) :=
  have h := addName_conflict_is_specific sampleStore 7 "Ann"
  ⟨by decide, h.1 ⟨1, 7, "Ann"⟩ (addContactPerson none sampleStore 7 "Ann").2 (by decide),
    h.2.2.1 ⟨some "23505"⟩ rfl,
    (addName_conflict_is_specific (addContactPerson none sampleStore 7 "Ann").2 7 "Ann").2.2.2.1
      ⟨⟨1, 7, "Ann"⟩, by decide, rfl, rfl⟩,
    h.2.2.2.2.2 ⟨some "08006"⟩ (by decide)⟩

/-- C16 (the code departs from it): in the upload handler the `catch` block
itself calls `fs.unlinkSync` without a guard.  When the ownership query rejects
and that unlink throws, the exception leaves the handler and no response is
sent at all; the same happens when the comment is not found and the file system
rejects both the unlink of that branch and the one of the `catch` block. -/
theorem uploadAttachment_cleanup_failure_escapes :
    (∀ (e e' : Failure) (insertFault unlinkFault : Option Failure) (s : Store)
        (files : List String) (userId commentId : Nat) (f : UploadedFile) (now : Nat),
      (uploadAttachment (some e) insertFault unlinkFault (some e') s files userId commentId
        (some f) now).response = none) ∧
    (uploadAttachment none none (some ⟨some "EACCES"⟩) (some ⟨some "EACCES"⟩) sampleWithComment
      ["uploads/file-1.txt"] 8 1 (some sampleFile) 50).response = none ∧
    (uploadAttachment none none (some ⟨some "EACCES"⟩) (some ⟨some "EACCES"⟩) sampleWithComment
      ["uploads/file-1.txt"] 8 1 (some sampleFile) 50).files = ["uploads/file-1.txt"] := by
  refine ⟨?_, by decide, by decide⟩
  intro e e' insertFault unlinkFault s files userId commentId f now
  rfl

/-! ## Facts about the stamping statuses -/

theorem timestampColumn_cases (status : Value) (column : String)
    (h : timestampColumn status = some column) :
    column = "followed_up_at" ∨ column = "not_received_at" ∨ column = "completed_at" := by
  unfold timestampColumn at h
  split_ifs at h <;> simp only [Option.some.injEq] at h <;> simp [← h]

/-! ## Facts about the listing of calls -/

theorem selectCalls_calls (s : Store) (userId : Nat) :
    (selectCalls s userId).map CallRow.call
      = (s.calls.filter (fun c => c.user_id == userId)).insertionSort
          (fun a b => b.created_at ≤ a.created_at) := by
  unfold selectCalls
  rw [List.map_map]
  exact List.map_id _

theorem selectCalls_sorted (s : Store) (userId : Nat) :
    (selectCalls s userId).Pairwise (fun a b => b.call.created_at ≤ a.call.created_at) := by
  haveI : IsTotal Call (fun a b => b.created_at ≤ a.created_at) :=
    ⟨fun a b => Nat.le_total b.created_at a.created_at⟩
  haveI : IsTrans Call (fun a b => b.created_at ≤ a.created_at) :=
    ⟨fun _ _ _ hab hbc => Nat.le_trans hbc hab⟩
  have hsorted := List.sorted_insertionSort (fun a b : Call => b.created_at ≤ a.created_at)
    (s.calls.filter (fun c => c.user_id == userId))
  unfold selectCalls
  rw [List.pairwise_map]
  exact hsorted

theorem mem_commentHistory (s : Store) (callId : Nat) (cj : CommentJson) :
    cj ∈ commentHistory s callId ↔
      ∃ cm ∈ s.comments, cm.call_id = callId ∧
        cj = ⟨cm.id, cm.text, cm.created_at, cm.updated_at, attachmentsOf s cm.id⟩ := by
  unfold commentHistory
  simp only [List.mem_map, List.mem_filter, beq_iff_eq]
  constructor
  · rintro ⟨cm, ⟨hcm, hcall⟩, rfl⟩
    exact ⟨cm, hcm, hcall, rfl⟩
  · rintro ⟨cm, hcm, hcall, rfl⟩
    exact ⟨cm, ⟨hcm, hcall⟩, rfl⟩

theorem mem_attachmentsOf (s : Store) (commentId : Nat) (aj : AttachmentJson) :
    aj ∈ attachmentsOf s commentId ↔
      ∃ a ∈ s.attachments, a.comment_id = commentId ∧
        aj = ⟨a.id, a.file_name, a.file_size, a.file_type, a.file_url⟩ := by
  unfold attachmentsOf
  simp only [List.mem_map, List.mem_filter, beq_iff_eq]
  constructor
  · rintro ⟨a, ⟨ha, hc⟩, rfl⟩
    exact ⟨a, ha, hc, rfl⟩
  · rintro ⟨a, ha, hc, rfl⟩
    exact ⟨a, ⟨ha, hc⟩, rfl⟩

/-- C18: `GET /calls` whose query goes through answers with a list whose calls are
the caller's calls, each as often as it is in the table (once, `id` being the
key), newest first by `created_at`.  The `comment_history` of a returned call
holds one entry per comment whose `call_id` is that call, and no other entry,
so it is empty when there is none; the `attachments` of an entry hold one entry
per attachment whose `comment_id` is that comment, and no other. -/
theorem listCalls_complete_and_sorted (s : Store) (userId : Nat) :
    ∃ rows, listCalls none s userId = ⟨200, Body.callList rows⟩ ∧
      (rows.map CallRow.call).Perm (s.calls.filter (fun c => c.user_id == userId)) ∧
      rows.Pairwise (fun a b => b.call.created_at ≤ a.call.created_at) ∧
      ∀ r ∈ rows,
        r.comment_history.map CommentJson.id
          = (s.comments.filter (fun cm => cm.call_id == r.call.id)).map Comment.id ∧
        (∀ cj, cj ∈ r.comment_history ↔
          ∃ cm ∈ s.comments, cm.call_id = r.call.id ∧
            cj = ⟨cm.id, cm.text, cm.created_at, cm.updated_at, attachmentsOf s cm.id⟩) ∧
        ∀ cj ∈ r.comment_history,
          cj.attachments.map AttachmentJson.id
            = (s.attachments.filter (fun a => a.comment_id == cj.id)).map Attachment.id ∧
          ∀ aj, aj ∈ cj.attachments ↔
            ∃ a ∈ s.attachments, a.comment_id = cj.id ∧
              aj = ⟨a.id, a.file_name, a.file_size, a.file_type, a.file_url⟩ := by
  refine ⟨selectCalls s userId, rfl, ?_, selectCalls_sorted s userId, ?_⟩
  · rw [selectCalls_calls]
    exact List.perm_insertionSort _ _
  · intro r hr
    obtain ⟨c, _, _, rfl⟩ := (mem_selectCalls s userId r).1 hr
    refine ⟨?_, mem_commentHistory s c.id, ?_⟩
    · simp only [commentHistory, List.map_map]
      rfl
    · intro cj hcj
      obtain ⟨cm, _, _, rfl⟩ := (mem_commentHistory s c.id cj).1 hcj
      refine ⟨?_, mem_attachmentsOf s cm.id⟩
      simp only [attachmentsOf, List.map_map]
      rfl

/-! ## Facts about the creation of calls -/

/-- C19 (as stated it fails): a body without the caller's name is answered with
the server error 500 `Failed to create call`, not with a 400; no call is
created. -/
theorem createCall_missing_field_is_server_error :
    createCall none sampleStore 7 sampleIncomplete 20
      = (⟨500, Body.error "Failed to create call"⟩, sampleStore) ∧
    (createCall none sampleStore 7 sampleIncomplete 20).1.status ≠ 400 := by
  decide

/-- C19 (amended): the create handler validates nothing and never answers 400.
A request that lacks one of the required fields (caller name, caller number,
person to contact, operator, priority) is rejected by the store, creates no
call and is answered 500 `Failed to create call`; a request with all required
fields, with or without a note, creates exactly one call, owned by the caller,
and is answered 201 with it. -/
theorem createCall_required_fields (s : Store) (userId : Nat) (b : CallInput) (now : Nat) :
    (∀ fault, (createCall fault s userId b now).1.status ≠ 400) ∧
    ((b.callerName = Value.null ∨ b.callerNumber = Value.null ∨ b.personToContact = Value.null ∨
        b.operatorName = Value.null ∨ b.priority = Value.null) →
      createCall none s userId b now = (⟨500, Body.error "Failed to create call"⟩, s)) ∧
    ((b.callerName ≠ Value.null ∧ b.callerNumber ≠ Value.null ∧ b.personToContact ≠ Value.null ∧
        b.operatorName ≠ Value.null ∧ b.priority ≠ Value.null) →
      ∃ row, createCall none s userId b now
          = (⟨201, Body.call row⟩,
              { s with calls := s.calls ++ [row], nextCallId := s.nextCallId + 1 }) ∧
        row.user_id = userId ∧ row.caller_name = b.callerName ∧ row.note = b.note) := by
  refine ⟨?_, ?_, ?_⟩
  · intro fault
    unfold createCall
    cases fault with
    | some e => simp
    | none =>
      cases insertCall s userId b now with
      | error e => simp
      | ok created =>
        obtain ⟨row, s'⟩ := created
        simp
  · intro hmissing
    simp only [createCall, insertCall, if_pos hmissing]
  · intro hall
    have hnot : ¬ (b.callerName = Value.null ∨ b.callerNumber = Value.null ∨
        b.personToContact = Value.null ∨ b.operatorName = Value.null ∨
        b.priority = Value.null) := by
      rintro (h | h | h | h | h)
      · exact hall.1 h
      · exact hall.2.1 h
      · exact hall.2.2.1 h
      · exact hall.2.2.2.1 h
      · exact hall.2.2.2.2 h
    refine ⟨{ id := s.nextCallId, user_id := userId, caller_name := b.callerName,
              caller_number := b.callerNumber, person_to_contact := b.personToContact,
              operator_name := b.operatorName, priority := b.priority, note := b.note,
              status := s.defaultStatus, followed_up_at := Value.null,
              not_received_at := Value.null, completed_at := Value.null, created_at := now },
      ?_, rfl, rfl, rfl⟩
    simp only [createCall, insertCall, if_neg hnot]

theorem createCall_required_fields_witness :
    createCall none sampleStore 7 sampleIncomplete 20
      = (⟨500, Body.error "Failed to create call"⟩, sampleStore) ∧
    (∃ row, createCall none sampleStore 7 sampleInput 20
        = (⟨201, Body.call row⟩,
            { sampleStore with calls := sampleStore.calls ++ [row],
                               nextCallId := sampleStore.nextCallId + 1 }) ∧
      row.user_id = 7 ∧ row.caller_name = sampleInput.callerName ∧ row.note = sampleInput.note) :=
  ⟨(createCall_required_fields sampleStore 7 sampleIncomplete 20).2.1 (Or.inl rfl),
    (createCall_required_fields sampleStore 7 sampleInput 20).2.2
      ⟨by decide, by decide, by decide, by decide, by decide⟩⟩

/-! ## Facts about the client's status filter -/

/-- C20: `filterByStatus` works on the cached copy only.  For every status it
leaves `allCalls` as it is and sends no request; for a status other than `All`
it sets `filteredCalls` to the calls of `allCalls` whose status is that string,
in their order, and for `All` to all of `allCalls`.  Called for `All` or for the
status of a card of the page, as the click handlers do, it returns normally,
draws the filtered rows and fills the status cards with the counts over
`allCalls`. -/
theorem filterByStatus_on_cached_copy (c : Client) (status : String) :
    (filterByStatus c status).1.allCalls = c.allCalls ∧
    (filterByStatus c status).1.requests = c.requests ∧
    (status ≠ "All" →
      (filterByStatus c status).1.filteredCalls
        = c.allCalls.filter (fun call => call.call.status == Value.str status)) ∧
    (filterByStatus c "All").1.filteredCalls = c.allCalls ∧
    ((status = "All" ∨ status ∈ c.statusCards) →
      (filterByStatus c status).2 = true ∧
      (filterByStatus c status).1.rendered = (filterByStatus c status).1.filteredCalls ∧
      (filterByStatus c status).1.cards = updateStatusCards c.allCalls) := by
  by_cases hall : status = "All"
  · subst hall
    refine ⟨rfl, rfl, fun h => absurd rfl h, rfl, fun _ => ⟨rfl, rfl, rfl⟩⟩
  · by_cases hcard : c.statusCards.contains status = true
    · have h : filterByStatus c status
          = ({ c with searchTerm := "", dateRange := "All Time",
                      filteredCalls :=
                        c.allCalls.filter (fun call => call.call.status == Value.str status),
                      rendered :=
                        c.allCalls.filter (fun call => call.call.status == Value.str status),
                      cards := updateStatusCards c.allCalls }, true) := by
        simp only [filterByStatus, if_neg hall, hcard, if_true]
      rw [h]
      exact ⟨rfl, rfl, fun _ => rfl, rfl, fun _ => ⟨rfl, rfl, rfl⟩⟩
    · have h : filterByStatus c status
          = ({ c with searchTerm := "", dateRange := "All Time",
                      filteredCalls :=
                        c.allCalls.filter (fun call => call.call.status == Value.str status) },
              false) := by
        simp only [filterByStatus, if_neg hall, hcard]
        rfl
      rw [h]
      refine ⟨rfl, rfl, fun _ => rfl, rfl, ?_⟩
      rintro (h' | h')
      · exact absurd h' hall
      · exact absurd (by simpa using h') hcard

theorem filterByStatus_on_cached_copy_witness :
    (filterByStatus sampleClient "Completed").1.filteredCalls
      = [⟨sampleComplete sampleCreated, []⟩] ∧
    (filterByStatus sampleClient "Completed").2 = true ∧
    (filterByStatus sampleClient "Completed").1.rendered
      = (filterByStatus sampleClient "Completed").1.filteredCalls ∧
    (filterByStatus sampleClient "Completed").1.cards = updateStatusCards sampleClient.allCalls ∧
    (filterByStatus sampleClient "Completed").1.cards = ⟨1, 0, 0, 0, 1⟩ :=
  have h := filterByStatus_on_cached_copy sampleClient "Completed"
  have drawn := h.2.2.2.2 (Or.inr (by decide))
  ⟨(h.2.2.1 (by decide)).trans (by decide), drawn.1, drawn.2.1, drawn.2.2,
    drawn.2.2.trans (by decide)⟩

/-! ## Facts about the deletion from the lookup lists -/

theorem namedBy_iff (userId : Nat) (name : String) (r : NameRow) :
    namedBy userId name r = true ↔ (r.user_id = userId ∧ r.name = name) := by
  simp [namedBy]

theorem deleteName_none (table : List NameRow) (userId : Nat) (name : String)
    (h : ∀ r ∈ table, ¬ (r.user_id = userId ∧ r.name = name)) :
    deleteName table userId name = ([], table) := by
  have hrows : table.filter (namedBy userId name) = [] := by
    rw [List.filter_eq_nil_iff]
    intro r hr
    rw [namedBy_iff]
    exact h r hr
  have hkeep : table.filter (fun r => !namedBy userId name r) = table := by
    rw [List.filter_eq_self]
    intro r hr
    have := h r hr
    rw [← namedBy_iff] at this
    simpa using this
  simp only [deleteName, hrows, hkeep]

theorem deleteName_some (table : List NameRow) (userId : Nat) (name : String)
    (h : ∃ r ∈ table, r.user_id = userId ∧ r.name = name) :
    ∃ first rest, deleteName table userId name
      = (first :: rest, table.filter (fun r => !namedBy userId name r)) := by
  obtain ⟨r, hr, hmatch⟩ := h
  have hin : r ∈ table.filter (namedBy userId name) :=
    List.mem_filter.2 ⟨hr, (namedBy_iff userId name r).2 hmatch⟩
  cases hrows : table.filter (namedBy userId name) with
  | nil => rw [hrows] at hin; cases hin
  | cons first rest => exact ⟨first, rest, by simp only [deleteName, hrows]⟩

theorem mem_filter_not_namedBy (table : List NameRow) (userId : Nat) (name : String)
    (r : NameRow) :
    r ∈ table.filter (fun r => !namedBy userId name r) ↔
      r ∈ table ∧ ¬ (r.user_id = userId ∧ r.name = name) := by
  rw [List.mem_filter, ← namedBy_iff]
  simp

theorem filter_not_namedBy_eq_erase (table : List NameRow) (userId : Nat) (name : String)
    (row : NameRow) (hrow : row ∈ table) (hmatch : row.user_id = userId ∧ row.name = name)
    (hnodup : table.Nodup)
    (hunique : ∀ r ∈ table, r.user_id = userId → r.name = name → r = row) :
    table.filter (fun r => !namedBy userId name r) = table.erase row := by
  rw [hnodup.erase_eq_filter]
  apply List.filter_congr
  intro r hr
  by_cases heq : r = row
  · subst heq
    simp [(namedBy_iff userId name r).2 hmatch]
  · have hno : namedBy userId name r = false := by
      by_contra hyes
      have hyes' : namedBy userId name r = true := by simpa using hyes
      obtain ⟨hu, hn⟩ := (namedBy_iff userId name r).1 hyes'
      exact heq (hunique r hr hu hn)
    simp [hno, heq]

theorem deleteContactPerson_table (s : Store) (userId : Nat) (name : String) :
    (deleteContactPerson none s userId name).2
      = { s with contact_persons :=
            s.contact_persons.filter (fun r => !namedBy userId name r) } := by
  unfold deleteContactPerson deleteName
  cases s.contact_persons.filter (namedBy userId name) <;> rfl

theorem deleteOperator_table (s : Store) (userId : Nat) (name : String) :
    (deleteOperator none s userId name).2
      = { s with operators := s.operators.filter (fun r => !namedBy userId name r) } := by
  unfold deleteOperator deleteName
  cases s.operators.filter (namedBy userId name) <;> rfl

/-- C21: delete-contact-person and delete-operator whose query goes through.
When the caller has a row with that name the answer is the success message and
the rows removed are exactly the caller's rows with that name (exactly that
row, a name being unique within a user's rows); the other table is untouched.
When the caller has no such row the answer is 404 (`Contact person not found`,
resp. `Operator not found`) and the store is unchanged.  Whatever the outcome,
a row of another user is kept, also when it carries the same name. -/
theorem deleteName_scoped_to_owner (s : Store) (userId : Nat) (name : String) :
    ((∃ r ∈ s.contact_persons, r.user_id = userId ∧ r.name = name) →
      (deleteContactPerson none s userId name).1
        = ⟨200, Body.message "Contact person deleted successfully"⟩ ∧
      (∀ r, r ∈ (deleteContactPerson none s userId name).2.contact_persons ↔
        r ∈ s.contact_persons ∧ ¬ (r.user_id = userId ∧ r.name = name)) ∧
      { (deleteContactPerson none s userId name).2 with contact_persons := s.contact_persons }
        = s) ∧
    ((∃ r ∈ s.operators, r.user_id = userId ∧ r.name = name) →
      (deleteOperator none s userId name).1
        = ⟨200, Body.message "Operator deleted successfully"⟩ ∧
      (∀ r, r ∈ (deleteOperator none s userId name).2.operators ↔
        r ∈ s.operators ∧ ¬ (r.user_id = userId ∧ r.name = name)) ∧
      { (deleteOperator none s userId name).2 with operators := s.operators } = s) ∧
    (∀ row ∈ s.contact_persons, row.user_id = userId → row.name = name →
      s.contact_persons.Nodup →
      (∀ r ∈ s.contact_persons, r.user_id = userId → r.name = name → r = row) →
      (deleteContactPerson none s userId name).2.contact_persons
        = s.contact_persons.erase row) ∧
    (∀ row ∈ s.operators, row.user_id = userId → row.name = name → s.operators.Nodup →
      (∀ r ∈ s.operators, r.user_id = userId → r.name = name → r = row) →
      (deleteOperator none s userId name).2.operators = s.operators.erase row) ∧
    ((∀ r ∈ s.contact_persons, ¬ (r.user_id = userId ∧ r.name = name)) →
      deleteContactPerson none s userId name
        = (⟨404, Body.error "Contact person not found"⟩, s)) ∧
    ((∀ r ∈ s.operators, ¬ (r.user_id = userId ∧ r.name = name)) →
      deleteOperator none s userId name = (⟨404, Body.error "Operator not found"⟩, s)) ∧
    (∀ fault, ∀ r ∈ s.contact_persons, r.user_id ≠ userId →
      r ∈ (deleteContactPerson fault s userId name).2.contact_persons) ∧
    (∀ fault, ∀ r ∈ s.operators, r.user_id ≠ userId →
      r ∈ (deleteOperator fault s userId name).2.operators) := by
  refine ⟨?_, ?_, ?_, ?_, ?_, ?_, ?_, ?_⟩
  · intro h
    obtain ⟨first, rest, hdel⟩ := deleteName_some s.contact_persons userId name h
    refine ⟨?_, ?_, ?_⟩
    · simp only [deleteContactPerson, hdel]
    · intro r
      rw [deleteContactPerson_table]
      exact mem_filter_not_namedBy s.contact_persons userId name r
    · rw [deleteContactPerson_table]
  · intro h
    obtain ⟨first, rest, hdel⟩ := deleteName_some s.operators userId name h
    refine ⟨?_, ?_, ?_⟩
    · simp only [deleteOperator, hdel]
    · intro r
      rw [deleteOperator_table]
      exact mem_filter_not_namedBy s.operators userId name r
    · rw [deleteOperator_table]
  · intro row hrow hu hn hnodup hunique
    rw [deleteContactPerson_table]
    exact filter_not_namedBy_eq_erase s.contact_persons userId name row hrow ⟨hu, hn⟩ hnodup
      hunique
  · intro row hrow hu hn hnodup hunique
    rw [deleteOperator_table]
    exact filter_not_namedBy_eq_erase s.operators userId name row hrow ⟨hu, hn⟩ hnodup hunique
  · intro h
    simp only [deleteContactPerson, deleteName_none s.contact_persons userId name h]
  · intro h
    simp only [deleteOperator, deleteName_none s.operators userId name h]
  · intro fault r hr hother
    cases fault with
    | some e => exact hr
    | none =>
      rw [deleteContactPerson_table]
      exact (mem_filter_not_namedBy s.contact_persons userId name r).2
        ⟨hr, fun h => hother h.1⟩
  · intro fault r hr hother
    cases fault with
    | some e => exact hr
    | none =>
      rw [deleteOperator_table]
      exact (mem_filter_not_namedBy s.operators userId name r).2 ⟨hr, fun h => hother h.1⟩

theorem deleteName_scoped_to_owner_witness :
    ((deleteContactPerson none sampleWithNames 7 "Ann").1
        = ⟨200, Body.message "Contact person deleted successfully"⟩ ∧
      (deleteContactPerson none sampleWithNames 7 "Ann").2.contact_persons
        = sampleWithNames.contact_persons.erase ⟨1, 7, "Ann"⟩ ∧
      (⟨2, 8, "Ann"⟩ : NameRow) ∈ (deleteContactPerson none sampleWithNames 7 "Ann").2.contact_persons) ∧
    ((deleteOperator none sampleWithNames 7 "Ann").1
        = ⟨200, Body.message "Operator deleted successfully"⟩ ∧
      (deleteOperator none sampleWithNames 7 "Ann").2.operators
        = sampleWithNames.operators.erase ⟨4, 7, "Ann"⟩) ∧
    deleteContactPerson none sampleWithNames 8 "Bea"
      = (⟨404, Body.error "Contact person not found"⟩, sampleWithNames) ∧
    deleteOperator none sampleWithNames 7 "Bea"
      = (⟨404, Body.error "Operator not found"⟩, sampleWithNames) :=
  have h := deleteName_scoped_to_owner sampleWithNames
  ⟨⟨((h 7 "Ann").1 ⟨⟨1, 7, "Ann"⟩, by decide, rfl, rfl⟩).1,
      (h 7 "Ann").2.2.1 ⟨1, 7, "Ann"⟩ (by decide) rfl rfl (by decide) (by decide),
      (h 7 "Ann").2.2.2.2.2.2.1 none ⟨2, 8, "Ann"⟩ (by decide) (by decide)⟩,
    ⟨((h 7 "Ann").2.1 ⟨⟨4, 7, "Ann"⟩, by decide, rfl, rfl⟩).1,
      (h 7 "Ann").2.2.2.1 ⟨4, 7, "Ann"⟩ (by decide) rfl rfl (by decide) (by decide)⟩,
    (h 8 "Bea").2.2.2.2.1 (by decide),
    (h 7 "Bea").2.2.2.2.2.1 (by decide)⟩

/-! ## Facts about the well-formedness of the status update -/

theorem placeholders_of_fields (fields : List Assignment) (whereId whereUserId : Nat)
    (params : List Value) :
    (StatusUpdate.mk fields whereId whereUserId params).placeholders
      = (StatusUpdate.mk fields whereId whereUserId []).placeholders := rfl

theorem buildStatusUpdate_placeholders (id userId now : Nat) (status : Value) :
    (buildStatusUpdate id userId status now).placeholders
      = 2 :: ((timestampColumn status).toList.map (fun _ => 3) ++ [1, 2]) := by
  unfold buildStatusUpdate
  cases hcol : timestampColumn status with
  | none =>
    show (StatusUpdate.mk _ _ _ _).placeholders = _
    rw [placeholders_of_fields]
    decide
  | some column =>
    rcases timestampColumn_cases status column hcol with h | h | h <;> subst h <;>
      (show (StatusUpdate.mk _ _ _ _).placeholders = _) <;> rw [placeholders_of_fields] <;> decide

theorem buildStatusUpdate_params_length (id userId now : Nat) (status : Value) :
    (buildStatusUpdate id userId status now).params.length
      = 3 + (timestampColumn status).toList.length := by
  unfold buildStatusUpdate
  cases timestampColumn status <;> rfl

/-- C22 (the code departs from it): the placeholders of the statement text are
`$2`, then `$3` for a stamping status, then `$1` and `$2` of the WHERE clause.
Each refers to a position of the parameter array, but the array always has one
entry more than the text has distinct placeholders (three against two, four
against three), `$2` serves both `status` and `user_id`, and the kinds do not
fit: for caller 7 requesting `Completed` on call 1, `status` is bound to the
number 7 and `completed_at` to the string `Completed`. -/
theorem statusUpdate_not_well_formed :
    (∀ (id userId now : Nat) (status : Value),
      (buildStatusUpdate id userId status now).placeholders
        = 2 :: ((timestampColumn status).toList.map (fun _ => 3) ++ [1, 2])) ∧
    (∀ (id userId now : Nat) (status : Value),
      (buildStatusUpdate id userId status now).placeholdersInRange = true) ∧
    (∀ (id userId now : Nat) (status : Value),
      (buildStatusUpdate id userId status now).params.length
        = (buildStatusUpdate id userId status now).placeholders.eraseDups.length + 1) ∧
    (∀ (id userId now : Nat) (status : Value),
      (buildStatusUpdate id userId status now).wellFormed = false) ∧
    (buildStatusUpdate 1 7 (Value.str "Completed") 1000).uses
      = [("status", 2), ("completed_at", 3), ("id", 1), ("user_id", 2)] ∧
    (buildStatusUpdate 1 7 (Value.str "Completed") 1000).params
      = [Value.num 1, Value.num 7, Value.str "Completed", Value.date 1000] ∧
    (buildStatusUpdate 1 7 (Value.str "Completed") 1000).kindsMatch = false ∧
    (buildStatusUpdate 1 7 (Value.str "Pending") 1000).kindsMatch = false := by
  have harity : ∀ (id userId now : Nat) (status : Value),
      (buildStatusUpdate id userId status now).params.length
        = (buildStatusUpdate id userId status now).placeholders.eraseDups.length + 1 := by
    intro id userId now status
    rw [buildStatusUpdate_placeholders, buildStatusUpdate_params_length]
    cases timestampColumn status <;> rfl
  refine ⟨buildStatusUpdate_placeholders, ?_, harity, ?_, by decide, by decide, by decide,
    by decide⟩
  · intro id userId now status
    unfold StatusUpdate.placeholdersInRange
    rw [buildStatusUpdate_placeholders, buildStatusUpdate_params_length]
    cases timestampColumn status <;> rfl
  · intro id userId now status
    have hno : (buildStatusUpdate id userId status now).arityMatches = false := by
      unfold StatusUpdate.arityMatches
      rw [harity]
      simp
    simp [StatusUpdate.wellFormed, hno]

/-! ## Facts about the serving of uploaded files -/

/-- C23 (the code departs from it): with the routes in `/app/src/routes` the
uploads directory is `/app/src/uploads`, and a plain file name stays inside it;
but for the file name `../server.js` (sent as `..%2Fserver.js`) the joined path
is `/app/src/server.js`, outside the uploads directory, and that is the file the
route tests for existence and sends; `../../../etc/passwd` gives
`/etc/passwd`. -/
theorem serveUpload_leaves_uploads_directory :
    uploadsDir "/app/src/routes" = "/app/src/uploads" ∧
    insideDir (uploadsDir "/app/src/routes") (uploadPath "/app/src/routes" "file-1.txt") = true ∧
    uploadPath "/app/src/routes" "../server.js" = "/app/src/server.js" ∧
    insideDir (uploadsDir "/app/src/routes") (uploadPath "/app/src/routes" "../server.js")
      = false ∧
    serveUpload ["/app/src/server.js"] "/app/src/routes" "../server.js"
      = ⟨200, Body.file "/app/src/server.js"⟩ ∧
    uploadPath "/app/src/routes" "../../../etc/passwd" = "/etc/passwd" ∧
    insideDir (uploadsDir "/app/src/routes")
      (uploadPath "/app/src/routes" "../../../etc/passwd") = false := by
  decide

/-! ## Facts about the status cards and the statistics -/

theorem statusCount_rows (rows : List CallRow) (status : String) :
    (rows.filter (fun call => call.call.status == Value.str status)).length
      = countStatus (rows.map CallRow.call) status := by
  unfold countStatus
  rw [List.countP_map, List.countP_eq_length_filter]
  rfl

theorem countStatus_perm (calls calls' : List Call) (status : String)
    (h : calls.Perm calls') : countStatus calls status = countStatus calls' status :=
  h.countP_eq _

/-- C24: whenever the list handed to `updateStatusCards` holds the caller's calls
(in any order), the five counts it computes are the `active_calls`,
`pending_calls`, `followed_up_calls`, `not_received_calls` and `completed_calls`
of `GET /calls/stats` over the same store; in particular for the list `GET
/calls` returns. -/
theorem statusCards_agree_with_stats (s : Store) (userId : Nat) :
    (∀ rows : List CallRow,
      (rows.map CallRow.call).Perm (s.calls.filter (fun c => c.user_id == userId)) →
      updateStatusCards rows
        = ⟨(selectStats s userId).active_calls, (selectStats s userId).pending_calls,
            (selectStats s userId).followed_up_calls, (selectStats s userId).not_received_calls,
            (selectStats s userId).completed_calls⟩) ∧
    (∃ rows stats, listCalls none s userId = ⟨200, Body.callList rows⟩ ∧
      callStats none s userId = ⟨200, Body.stats stats⟩ ∧
      updateStatusCards rows
        = ⟨stats.active_calls, stats.pending_calls, stats.followed_up_calls,
            stats.not_received_calls, stats.completed_calls⟩) := by
  have hgeneral : ∀ rows : List CallRow,
      (rows.map CallRow.call).Perm (s.calls.filter (fun c => c.user_id == userId)) →
      updateStatusCards rows
        = ⟨(selectStats s userId).active_calls, (selectStats s userId).pending_calls,
            (selectStats s userId).followed_up_calls, (selectStats s userId).not_received_calls,
            (selectStats s userId).completed_calls⟩ := by
    intro rows hperm
    simp only [updateStatusCards, selectStats, statusCount_rows,
      countStatus_perm _ _ _ hperm]
  refine ⟨hgeneral, selectCalls s userId, selectStats s userId, rfl, rfl, ?_⟩
  apply hgeneral
  rw [selectCalls_calls]
  exact List.perm_insertionSort _ _

theorem statusCards_agree_with_stats_witness :
    ([⟨sampleCreated, []⟩, ⟨sampleCall, []⟩].map CallRow.call).Perm
      (sampleAfterCreate.calls.filter (fun c => c.user_id == 7)) ∧
    updateStatusCards [⟨sampleCreated, []⟩, ⟨sampleCall, []⟩]
      = ⟨(selectStats sampleAfterCreate 7).active_calls,
          (selectStats sampleAfterCreate 7).pending_calls,
          (selectStats sampleAfterCreate 7).followed_up_calls,
          (selectStats sampleAfterCreate 7).not_received_calls,
          (selectStats sampleAfterCreate 7).completed_calls⟩ ∧
    updateStatusCards [⟨sampleCreated, []⟩, ⟨sampleCall, []⟩] = ⟨2, 0, 0, 0, 0⟩ :=
  have hperm : ([⟨sampleCreated, []⟩, ⟨sampleCall, []⟩].map CallRow.call).Perm
      (sampleAfterCreate.calls.filter (fun c => c.user_id == 7)) :=
    List.Perm.swap sampleCall sampleCreated []
  ⟨hperm, (statusCards_agree_with_stats sampleAfterCreate 7).1 _ hperm, by decide⟩

/-! ## Facts about the answer of the status update -/

theorem buildStatusUpdate_arity_mismatch (id userId now : Nat) (status : Value) :
    (buildStatusUpdate id userId status now).arityMatches = false := by
  unfold StatusUpdate.arityMatches
  rw [buildStatusUpdate_placeholders, buildStatusUpdate_params_length]
  cases timestampColumn status <;> rfl

theorem execStatusUpdate_rejected (id userId now : Nat) (status : Value) (calls : List Call) :
    execStatusUpdate (buildStatusUpdate id userId status now) calls
      = Except.error ⟨some "08P01"⟩ := by
  unfold execStatusUpdate
  rw [buildStatusUpdate_arity_mismatch]
  rfl

theorem patchStatus_server_error (fault : Option Failure) (s : Store) (userId id : Nat)
    (status : Value) (now : Nat) :
    patchStatus fault s userId id status now
      = (⟨500, Body.error "Failed to update call status"⟩, s) := by
  unfold patchStatus
  cases fault with
  | some e => rfl
  | none => simp only [execStatusUpdate_rejected]

/-- C3 (the code departs from it): the placeholders of the WHERE clause are bound
to the call id and to the caller's id, and no row changes, but the answer is
never 404 `Call not found`: the engine rejects the statement, whose parameter
array has one entry too many, and the handler answers 500 `Failed to update
call status` to every request, also to the one of user 8 for call 1 of user 7. -/
theorem patchStatus_never_not_found :
    (∀ (fault : Option Failure) (s : Store) (userId id : Nat) (status : Value) (now : Nat),
      patchStatus fault s userId id status now
        = (⟨500, Body.error "Failed to update call status"⟩, s)) ∧
    (∀ (id userId now : Nat) (status : Value),
      boundValue (buildStatusUpdate id userId status now).params
        (buildStatusUpdate id userId status now).whereId = some (Value.num id) ∧
      boundValue (buildStatusUpdate id userId status now).params
        (buildStatusUpdate id userId status now).whereUserId = some (Value.num userId)) ∧
    sampleStore.calls.all (fun c => !(c.id == 1 && c.user_id == 8)) = true ∧
    patchStatus none sampleStore 8 1 (Value.str "Completed") 1000
      = (⟨500, Body.error "Failed to update call status"⟩, sampleStore) ∧
    (patchStatus none sampleStore 8 1 (Value.str "Completed") 1000).1.status ≠ 404 := by
  refine ⟨patchStatus_server_error, ?_, by decide, by decide, by decide⟩
  intro id userId now status
  unfold buildStatusUpdate
  cases timestampColumn status <;> exact ⟨rfl, rfl⟩

/-- C17: the status update enforces no workflow graph.  The statement it sends is
built from the call id, the caller and the requested status alone: its text does
not depend on the clock, nor on the store, and its parameters are the call id,
the caller's id, the requested status and, for a stamping status, the clock.
The answer and the store afterwards do not depend on what the rows hold: they
are the same in every store, hence for every current status of the target call,
so no requested status is treated differently because of the current one;
requesting `Completed` for the `Active` call 1 is answered as requesting
`Active` for the same call when it is `Completed`. -/
theorem patchStatus_no_workflow_graph (userId id : Nat) (status : Value) (now : Nat) :
    (∀ now', (buildStatusUpdate id userId status now').text
      = (buildStatusUpdate id userId status now).text) ∧
    (buildStatusUpdate id userId status now).params
      = [Value.num id, Value.num userId, status] ++
          (timestampColumn status).toList.map (fun _ => Value.date now) ∧
    (∀ (fault : Option Failure) (s s' : Store),
      (patchStatus fault s userId id status now).1
        = (patchStatus fault s' userId id status now).1) ∧
    (∀ (fault : Option Failure) (s : Store) (f : Call → Call),
      (patchStatus fault { s with calls := s.calls.map f } userId id status now).1
        = (patchStatus fault s userId id status now).1) ∧
    (∀ (fault : Option Failure) (s : Store), (patchStatus fault s userId id status now).2 = s) ∧
    sampleCall.status = Value.str "Active" ∧
    (patchStatus none sampleStore 7 1 (Value.str "Completed") 1000).1
      = (patchStatus none { sampleStore with calls := sampleStore.calls.map sampleComplete } 7 1
          (Value.str "Active") 1000).1 := by
  refine ⟨?_, ?_, ?_, ?_, ?_, rfl, ?_⟩
  · intro now'
    unfold buildStatusUpdate
    cases timestampColumn status <;> rfl
  · unfold buildStatusUpdate
    cases timestampColumn status <;> rfl
  · intro fault s s'
    rw [patchStatus_server_error, patchStatus_server_error]
  · intro fault s f
    rw [patchStatus_server_error, patchStatus_server_error]
  · intro fault s
    rw [patchStatus_server_error]
  · rw [patchStatus_server_error, patchStatus_server_error]

end Databasenet
